import Mathlib

/-!
Verification development for `qcl_controller.py` (daylight_qcl_interface).

The Python class `QCL` is a serial-port wrapper around a tunable QCL laser.
We give a shallow embedding: the mutable object state (the `Stat` namedtuple,
the log buffer, the serial port) becomes an explicit state record `QCLState`,
each method becomes a state-passing function in a monad `M`, and Python
exceptions become an explicit error result.  Python floats are modelled as
rationals (`ℚ`); the device replies are modelled as a byte (character) stream
preloaded in `input`, from which `ser.read n` takes up to `n` characters
(a short read, as after a timeout, simply yields fewer characters).
`str()` of a numeric value is modelled by `pyStr` (exact decimal rendering),
`float()` by `pyFloat` (the plain-decimal fragment of Python's float parser:
optional surrounding whitespace, optional sign, digits with an optional
decimal point; the device's fixed-width numeric payloads all fall in this
fragment), and `int()` by `pyInt`.
-/

namespace QCL

/-- Direction tag for `_log_write` (the Python code passes the strings
"read" / "write"). -/
inductive LMode where
  | readm
  | writem
deriving Repr, DecidableEq

/-- Observable I/O events of a run: bytes written to the serial port,
bytes read from it, and sleeps. -/
inductive Event where
  | wr (s : String)
  | rd (s : String)
  | sl (t : ℚ)
deriving Repr, DecidableEq

/-- Python exceptions that the embedded code can raise.  `fuelOut` is a
model artefact: the `while True` polling loops are modelled with explicit
fuel, and running out of fuel (the real loop would still be spinning)
is reported as this error. -/
inductive PyError where
  | valueError (msg : String)
  | fuelOut
deriving Repr, DecidableEq

/-- The `Stat` namedtuple `_state`, field for field and in declaration
order.  Fields start out as `None` (here `none`), except `interval`,
which is initialised to `3`. -/
structure Stat where
  wn : Option ℚ
  freq : Option ℚ
  pw : Option ℚ
  startwn : Option ℚ
  stopwn : Option ℚ
  rate : Option ℚ
  cycles : Option ℚ
  mode : Option ℤ
  pause : Option ℚ
  step : Option ℚ
  whours : Option ℚ
  scancount : Option ℤ
  interval : ℚ
  awn : Option ℚ
deriving Repr, DecidableEq

/-- The mutable state of one `QCL` object together with its serial port:
the `log` flag, the in-memory `log_file` buffer (message text paired with
a timestamp, modelling `datetime.now()` by a counter `now`), the `Stat`
snapshot, the bytes still available to read from the device (`input`),
and the trace of I/O events performed so far. -/
structure QCLState where
  log : Bool
  log_file : List (String × ℕ)
  now : ℕ
  stat : Stat
  input : List Char
  trace : List Event
deriving Repr, DecidableEq

/-- Result of running one method: normal return or a raised exception,
in both cases together with the state at that moment (Python exceptions
do not roll back mutations already performed). -/
inductive Res (α : Type) where
  | ok (a : α) (s : QCLState)
  | err (e : PyError) (s : QCLState)
deriving Repr, DecidableEq

/-- The method monad: a state transformer with exceptions that keep the
state at the raise point. -/
def M (α : Type) : Type := QCLState → Res α

instance : Monad M where
  pure a := fun s => Res.ok a s
  bind x f := fun s =>
    match x s with
    | Res.ok a t => f a t
    | Res.err e t => Res.err e t

/-- Raise a Python exception. -/
def raise (e : PyError) : M α := fun s => Res.err e s

/-- Read the current object state (`self`). -/
def getS : M QCLState := fun s => Res.ok s s

/-- Mutate the object state. -/
def modifyS (f : QCLState → QCLState) : M Unit := fun s => Res.ok () (f s)

/-- `self.ser.write(command)`: record the written bytes. -/
def ser_write (command : String) : M Unit := fun st =>
  Res.ok () { st with trace := st.trace ++ [Event.wr command] }

/-- `self.ser.read(n)`: take up to `n` characters from the pending
device bytes (fewer are returned when the device sends fewer before the
timeout, exactly as pyserial's fixed-count read with a timeout). -/
def ser_read (n : ℕ) : M String := fun st =>
  let answer := String.mk (st.input.take n)
  Res.ok answer { st with
    input := st.input.drop n,
    trace := st.trace ++ [Event.rd answer] }

/-- `time.sleep(t)` (and the delay of a `threading.Timer`): recorded as
an event. -/
def sleep (t : ℚ) : M Unit := fun st =>
  Res.ok () { st with trace := st.trace ++ [Event.sl t] }

/-- `QCL._log_write(string, mode)`: when `self.log` is `True`, append the
direction-tagged text with a timestamp to `log_file`; the clock advances
either way. -/
def log_write (string : String) (mode : LMode) : M Unit := fun st =>
  let msg := match mode with
    | LMode.readm => ("<<< ") ++ string
    | LMode.writem => (">>> ") ++ string
  Res.ok () { st with
    log_file := if st.log then st.log_file ++ [(msg, st.now)] else st.log_file,
    now := st.now + 1 }

/-! ### Python numeric parsing and printing, on the fragment the device uses -/

/-- Numeric value of a list of decimal digit characters. -/
def digitsToNat (l : List Char) : ℕ :=
  l.foldl (fun n c => 10 * n + (c.toNat - 48)) 0

/-- Strip whitespace from both ends (Python `str.strip()` as performed by
`float()` / `int()` on their argument). -/
def stripWs (l : List Char) : List Char :=
  ((l.dropWhile Char.isWhitespace).reverse.dropWhile Char.isWhitespace).reverse

/-- Split a leading sign character off, returning whether the value is
negated and the remainder. -/
def splitSign : List Char → Bool × List Char
  | [] => (false, [])
  | c :: rest =>
    if c = ('-') then (true, rest)
    else if c = ('+') then (false, rest)
    else (false, c :: rest)

/-- Unsigned decimal literal: `digits`, `digits.digits`, `digits.` or
`.digits` (at least one digit overall); anything else fails. -/
def pyFloatDigits (l : List Char) : Option ℚ :=
  let ip := l.takeWhile Char.isDigit
  let rest := l.dropWhile Char.isDigit
  match rest with
  | [] => if ip.isEmpty then none else some ((digitsToNat ip : ℚ))
  | c :: frac =>
    if c = ('.') ∧ frac.all Char.isDigit ∧ (ip.length + frac.length ≠ 0) then
      some ((digitsToNat ip : ℚ) + (digitsToNat frac : ℚ) / (10 : ℚ) ^ frac.length)
    else none

/-- Python `float(s)` on plain decimal strings; `none` models the raised
`ValueError` (in particular on the empty or a short / malformed reply). -/
def pyFloat (s : String) : Option ℚ :=
  let p := splitSign (stripWs s.data)
  (pyFloatDigits p.2).map (fun q => if p.1 then -q else q)

/-- Python `int(s)`: optional whitespace and sign, then a nonempty run of
digits and nothing else. -/
def pyInt (s : String) : Option ℤ :=
  let p := splitSign (stripWs s.data)
  if p.2.isEmpty ∨ ¬ p.2.all Char.isDigit then none
  else some (if p.1 then -(digitsToNat p.2 : ℤ) else (digitsToNat p.2 : ℤ))

/-- Python `int(v)` on a numeric value: truncation toward zero. -/
def pyTrunc (q : ℚ) : ℤ := q.num.tdiv (q.den : ℤ)

/-- Smallest exponent `k` with `10 ^ k` divisible by `d`, when one exists
below 19 (it does for every denominator of a decimal literal). -/
def decDigits (d : ℕ) : Option ℕ :=
  (List.range 19).find? (fun k => 10 ^ k % d == 0)

/-- Pad a digit string on the left with zeros to length `k`. -/
def padLeftZeros (s : List Char) (k : ℕ) : List Char :=
  List.replicate (k - s.length) ('0') ++ s

/-- Python `str(v)` of a numeric value, modelled as exact decimal
rendering with at least one integer and one fractional digit (e.g.
`str(1080.0) = "1080.0"`, `str(0.04) = "0.04"`); non-decimal rationals
(which never arise from `pyFloat`) fall back to fraction notation. -/
def pyStr (q : ℚ) : String :=
  let sign := if q.num < 0 then ("-") else ""
  match decDigits q.den with
  | some 0 => sign ++ toString q.num.natAbs ++ (".0")
  | some (k + 1) =>
    let scaled := q.num.natAbs * 10 ^ (k + 1) / q.den
    let ds := padLeftZeros (toString scaled).data (k + 2)
    sign ++ String.mk (ds.take (ds.length - (k + 1))) ++ (".") ++
      String.mk (ds.drop (ds.length - (k + 1)))
  | none => sign ++ toString q.num.natAbs ++ ("/") ++ toString q.den

/-- Python slicing `s[:-k]` (empty when `s` has at most `k` characters). -/
def sliceToNeg (s : String) (k : ℕ) : String :=
  String.mk (s.data.take (s.data.length - k))

/-- The `ValueError` raised by `float()` on a malformed string. -/
def floatError (s : String) : PyError :=
  PyError.valueError (("could not convert string to float: ") ++ s)

/-- The `ValueError` raised by `int()` on a malformed string. -/
def intError (s : String) : PyError :=
  PyError.valueError (("invalid literal for int: ") ++ s)

/-- `float(s)` as a monadic step: raises `ValueError` on failure. -/
def floatE (s : String) : M ℚ := fun st =>
  match pyFloat s with
  | some q => Res.ok q st
  | none => Res.err (floatError s) st

/-- `int(s)` as a monadic step: raises `ValueError` on failure. -/
def intE (s : String) : M ℤ := fun st =>
  match pyInt s with
  | some q => Res.ok q st
  | none => Res.err (intError s) st

/-! ### The `_Range` table and the `QCL` methods -/

/-- The `_control` namedtuple instantiated as `self._Range`: the closed
`(lower, upper)` bound for each settable parameter, exactly as in
`QCL.__init__`. -/
structure ControlRanges where
  wn : ℚ × ℚ
  freq : ℚ × ℚ
  pw : ℚ × ℚ
  startwn : ℚ × ℚ
  stopwn : ℚ × ℚ
  rate : ℚ × ℚ
  cycles : ℚ × ℚ
  mode : ℚ × ℚ
  pause : ℚ × ℚ
  step : ℚ × ℚ
  interval : ℚ × ℚ
deriving Repr, DecidableEq

/-- `self._Range` from `QCL.__init__`. -/
def RangeT : ControlRanges where
  wn := (980.04, 1244.99)
  freq := (1.0, 100.0)
  pw := (0.04, 0.5)
  startwn := (980.04, 1244.99)
  stopwn := (980.04, 1244.99)
  rate := (1.0, 6.0)
  cycles := (1.0, 10000.0)
  mode := (1.0, 4.0)
  pause := (0.0, 10.0)
  step := (0.01, 264.95)
  interval := (1.0, 1000.0)

/-- The `ValueError("{} is out of range!".format(str(value)))` raised by
every setter's range check. -/
def rangeError (value : ℚ) : PyError :=
  PyError.valueError (pyStr value ++ (" is out of range!"))

/-- `QCL.get_wn`. -/
def get_wn : M ℚ := do
  let command := ":laser:set?\n"
  log_write command LMode.writem
  ser_write command
  let answer ← ser_read 13
  log_write answer LMode.readm
  let rlvalue ← floatE (sliceToNeg answer 6)
  modifyS (fun st => { st with stat := { st.stat with wn := some rlvalue } })
  pure rlvalue

/-- `QCL.set_wn`. -/
def set_wn (value : ℚ) : M ℚ := do
  if value < RangeT.wn.1 ∨ value > RangeT.wn.2 then
    raise (rangeError value)
  else
    let command := ":laser:set " ++ pyStr value ++ "\n"
    log_write command LMode.writem
    ser_write command
    let rlvalue ← get_wn
    pure rlvalue

/-- `QCL.get_freq`. -/
def get_freq : M ℚ := do
  let command := ":pulse:freq?\n"
  log_write command LMode.writem
  ser_write command
  let answer ← ser_read 10
  log_write answer LMode.readm
  let rlvalue ← floatE (sliceToNeg answer 5)
  modifyS (fun st => { st with stat := { st.stat with freq := some rlvalue } })
  pure rlvalue

/-- `QCL.set_freq`. -/
def set_freq (value : ℚ) : M ℚ := do
  if value < RangeT.freq.1 ∨ value > RangeT.freq.2 then
    raise (rangeError value)
  else
    let command := ":pulse:freq " ++ pyStr value ++ "\n"
    log_write command LMode.writem
    ser_write command
    let rlvalue ← get_freq
    pure rlvalue

/-- `QCL.get_pw`. -/
def get_pw : M ℚ := do
  let command := ":pulse:width?\n"
  log_write command LMode.writem
  ser_write command
  let answer ← ser_read 10
  log_write answer LMode.readm
  let rlvalue ← floatE (sliceToNeg answer 6)
  modifyS (fun st => { st with stat := { st.stat with pw := some rlvalue } })
  pure rlvalue

/-- `QCL.set_pw`. -/
def set_pw (value : ℚ) : M ℚ := do
  if value < RangeT.pw.1 ∨ value > RangeT.pw.2 then
    raise (rangeError value)
  else
    let command := ":pulse:width " ++ pyStr value ++ "\n"
    log_write command LMode.writem
    ser_write command
    let rlvalue ← get_pw
    pure rlvalue

/-- `QCL.get_startwn`. -/
def get_startwn : M ℚ := do
  let command := ":scan:start?\n"
  log_write command LMode.writem
  ser_write command
  let answer ← ser_read 13
  log_write answer LMode.readm
  let rlvalue ← floatE (sliceToNeg answer 6)
  modifyS (fun st => { st with stat := { st.stat with startwn := some rlvalue } })
  pure rlvalue

/-- `QCL.set_startwn`. -/
def set_startwn (value : ℚ) : M ℚ := do
  if value < RangeT.startwn.1 ∨ value > RangeT.startwn.2 then
    raise (rangeError value)
  else
    let command := ":scan:start " ++ pyStr value ++ "\n"
    log_write command LMode.writem
    ser_write command
    let rlvalue ← get_startwn
    pure rlvalue

/-- `QCL.get_stopwn`. -/
def get_stopwn : M ℚ := do
  let command := ":scan:stop?\n"
  log_write command LMode.writem
  ser_write command
  let answer ← ser_read 13
  log_write answer LMode.readm
  let rlvalue ← floatE (sliceToNeg answer 6)
  modifyS (fun st => { st with stat := { st.stat with stopwn := some rlvalue } })
  pure rlvalue

/-- `QCL.set_stopwn`. -/
def set_stopwn (value : ℚ) : M ℚ := do
  if value < RangeT.stopwn.1 ∨ value > RangeT.stopwn.2 then
    raise (rangeError value)
  else
    let command := ":scan:stop " ++ pyStr value ++ "\n"
    log_write command LMode.writem
    ser_write command
    let rlvalue ← get_stopwn
    pure rlvalue

/-- `QCL.get_rate`. -/
def get_rate : M ℚ := do
  let command := ":scan:rate?\n"
  log_write command LMode.writem
  ser_write command
  let answer ← ser_read 3
  log_write answer LMode.readm
  let rlvalue ← floatE (sliceToNeg answer 2)
  modifyS (fun st => { st with stat := { st.stat with rate := some rlvalue } })
  pure rlvalue

/-- `QCL.set_rate`. -/
def set_rate (value : ℚ) : M ℚ := do
  if value < RangeT.rate.1 ∨ value > RangeT.rate.2 then
    raise (rangeError value)
  else
    let command := ":scan:rate " ++ pyStr value ++ "\n"
    log_write command LMode.writem
    ser_write command
    let rlvalue ← get_rate
    pure rlvalue

/-- `QCL.get_cycles`. -/
def get_cycles : M ℚ := do
  let command := ":scan:cycles?\n"
  log_write command LMode.writem
  ser_write command
  let answer ← ser_read 20
  log_write answer LMode.readm
  let rlvalue ← floatE (sliceToNeg answer 2)
  modifyS (fun st => { st with stat := { st.stat with cycles := some rlvalue } })
  pure rlvalue

/-- `QCL.set_cycles`. -/
def set_cycles (value : ℚ) : M ℚ := do
  if value < RangeT.cycles.1 ∨ value > RangeT.cycles.2 then
    raise (rangeError value)
  else
    let command := ":scan:cycles " ++ pyStr value ++ "\n"
    log_write command LMode.writem
    ser_write command
    let rlvalue ← get_cycles
    pure rlvalue

/-- `QCL.get_mode`. -/
def get_mode : M ℤ := do
  let command := ":scan:mode?\n"
  log_write command LMode.writem
  ser_write command
  let answer ← ser_read 3
  log_write answer LMode.readm
  let rlvalue ← intE (sliceToNeg answer 2)
  modifyS (fun st => { st with stat := { st.stat with mode := some rlvalue } })
  pure rlvalue

/-- `QCL.set_mode` (the command interpolates `str(int(value))`). -/
def set_mode (value : ℚ) : M ℤ := do
  if value < RangeT.mode.1 ∨ value > RangeT.mode.2 then
    raise (rangeError value)
  else
    let command := ":scan:mode " ++ toString (pyTrunc value) ++ "\n"
    log_write command LMode.writem
    ser_write command
    let rlvalue ← get_mode
    pure rlvalue

/-- `QCL.get_pause`: a no-op returning `None` while the cached scan mode
equals `2`, the full query otherwise (also when the mode is unknown,
since in Python `None == 2` is `False`). -/
def get_pause : M (Option ℚ) := do
  let st ← getS
  if st.stat.mode = some 2 then
    pure none
  else
    let command := ":scan:pause?\n"
    log_write command LMode.writem
    ser_write command
    let answer ← ser_read 9
    log_write answer LMode.readm
    let rlvalue ← floatE (sliceToNeg answer 5)
    modifyS (fun s => { s with stat := { s.stat with pause := some rlvalue } })
    pure (some rlvalue)

/-- `QCL.set_pause`: gated exactly like `get_pause`; note the range check
sits inside the gate. -/
def set_pause (value : ℚ) : M (Option ℚ) := do
  let st ← getS
  if st.stat.mode = some 2 then
    pure none
  else
    if value < RangeT.pause.1 ∨ value > RangeT.pause.2 then
      raise (rangeError value)
    else
      let command := ":scan:pause " ++ pyStr value ++ "\n"
      log_write command LMode.writem
      ser_write command
      let rlvalue ← get_pause
      pure rlvalue

/-- `QCL.get_step`: a no-op returning `None` unless the cached scan mode
is `1` or `2` (so also a no-op while the mode is unknown). -/
def get_step : M (Option ℚ) := do
  let st ← getS
  if ¬ (st.stat.mode = some 1 ∨ st.stat.mode = some 2) then
    pure none
  else
    let command := ":scan:step?\n"
    log_write command LMode.writem
    ser_write command
    let answer ← ser_read 11
    log_write answer LMode.readm
    let rlvalue ← floatE (sliceToNeg answer 6)
    modifyS (fun s => { s with stat := { s.stat with step := some rlvalue } })
    pure (some rlvalue)

/-- `QCL.set_step`: gated exactly like `get_step`. -/
def set_step (value : ℚ) : M (Option ℚ) := do
  let st ← getS
  if ¬ (st.stat.mode = some 1 ∨ st.stat.mode = some 2) then
    pure none
  else
    if value < RangeT.step.1 ∨ value > RangeT.step.2 then
      raise (rangeError value)
    else
      let command := ":scan:step " ++ pyStr value ++ "\n"
      log_write command LMode.writem
      ser_write command
      let rlvalue ← get_step
      pure rlvalue

/-- `QCL.set_interval`: a purely local parameter for `man_scan`; after
the range check the value is stored directly into `Stat` with no serial
traffic and no confirming get. -/
def set_interval (value : ℚ) : M ℚ := do
  if value < RangeT.interval.1 ∨ value > RangeT.interval.2 then
    raise (rangeError value)
  else
    modifyS (fun st => { st with stat := { st.stat with interval := value } })
    pure value

/-- `QCL.get_whours`. -/
def get_whours : M ℚ := do
  let command := ":info:hhrs?\n"
  log_write command LMode.writem
  ser_write command
  let answer ← ser_read 11
  log_write answer LMode.readm
  let rlvalue ← floatE (sliceToNeg answer 5)
  modifyS (fun st => { st with stat := { st.stat with whours := some rlvalue } })
  pure rlvalue

/-- `QCL.get_scancount`. -/
def get_scancount : M ℤ := do
  let command := ":scan:count?\n"
  log_write command LMode.writem
  ser_write command
  let answer ← ser_read 6
  log_write answer LMode.readm
  let rlvalue ← intE (sliceToNeg answer 2)
  modifyS (fun st => { st with stat := { st.stat with scancount := some rlvalue } })
  pure rlvalue

/-- `QCL.get_awn`. -/
def get_awn : M ℚ := do
  let command := ":laser:pos?\n"
  log_write command LMode.writem
  ser_write command
  let answer ← ser_read 13
  log_write answer LMode.readm
  let rlvalue ← floatE (sliceToNeg answer 6)
  modifyS (fun st => { st with stat := { st.stat with awn := some rlvalue } })
  pure rlvalue

/-- `QCL.get_all`: `for command in self.Get[:-1]: command()` — every
getter in the declaration order of the `_query` namedtuple (`wn, freq,
pw, startwn, stopwn, rate, cycles, mode, pause, step, whours, scancount,
awn`; the final member `all` is sliced off), then `return self.Stat`. -/
def get_all : M Stat := do
  let _ ← get_wn
  let _ ← get_freq
  let _ ← get_pw
  let _ ← get_startwn
  let _ ← get_stopwn
  let _ ← get_rate
  let _ ← get_cycles
  let _ ← get_mode
  let _ ← get_pause
  let _ ← get_step
  let _ ← get_whours
  let _ ← get_scancount
  let _ ← get_awn
  let st ← getS
  pure st.stat

/-- `QCL.scan_start`. -/
def scan_start : M Unit := do
  let command := ":scan:run 1\n"
  log_write command LMode.writem
  ser_write command

/-- `QCL.scan_stop`. -/
def scan_stop : M Unit := do
  let command := ":scan:run 0\n"
  log_write command LMode.writem
  ser_write command

/-- `QCL.step_next`. -/
def step_next : M Unit := do
  let command := ":scan:step:next\n"
  log_write command LMode.writem
  ser_write command

/-- The `while True` body of `wait_for_finish(asynchron=False)`:
poll `get_scancount`, break when the freshly cached count is `0`,
otherwise `sleep(interval)` and loop.  The unbounded Python loop is
modelled with explicit fuel. -/
def wfLoop (interval : ℚ) : ℕ → M Unit
  | 0 => raise PyError.fuelOut
  | n + 1 => do
    let _ ← get_scancount
    let st ← getS
    if st.stat.scancount = some 0 then
      pure ()
    else
      sleep interval
      wfLoop interval n

/-- `QCL.wait_for_finish(interval, asynchron=False)` (the synchronous
branch; the `asynchron=True` branch spawns a `threading.Timer` chain and
is outside this sequential model). -/
def wait_for_finish (interval : ℚ) (fuel : ℕ) : M Unit :=
  wfLoop interval fuel

/-- The `while True` body of `man_scan(asynchron=False)`: poll
`get_scancount`, break on `0`, otherwise `step_next()` then
`sleep(interval)` and loop. -/
def msLoop (interval : ℚ) : ℕ → M Unit
  | 0 => raise PyError.fuelOut
  | n + 1 => do
    let _ ← get_scancount
    let st ← getS
    if st.stat.scancount = some 0 then
      pure ()
    else
      step_next
      sleep interval
      msLoop interval n

/-- `QCL.man_scan(asynchron=False)`: read `interval` from `Stat`,
`scan_start()`, a fixed `sleep(3)` grace period, then the poll loop. -/
def man_scan_sync (fuel : ℕ) : M Unit := do
  let st ← getS
  let interval := st.stat.interval
  scan_start
  sleep 3
  msLoop interval fuel

/-- The self-re-arming `asynchron_timer` callback of
`man_scan(asynchron=True)`, linearised: each invocation polls
`get_scancount` and `get_awn`; on a nonzero count it issues
`step_next()` and re-arms a `Timer(interval, ...)`, modelled as
`sleep interval` followed by the next invocation. -/
def msTimerLoop (interval : ℚ) : ℕ → M Unit
  | 0 => raise PyError.fuelOut
  | n + 1 => do
    let _ ← get_scancount
    let _ ← get_awn
    let st ← getS
    if st.stat.scancount = some 0 then
      pure ()
    else
      step_next
      sleep interval
      msTimerLoop interval n

/-- `QCL.man_scan(asynchron=True)`, linearised (the deferred callbacks
form a strictly sequential chain on the single serial connection): read
`interval` from `Stat`, `scan_start()`, then the initial
`Timer(interval, asynchron_timer)` delay followed by the callback
chain. -/
def man_scan_async (fuel : ℕ) : M Unit := do
  let st ← getS
  let interval := st.stat.interval
  scan_start
  sleep interval
  msTimerLoop interval fuel

/-- The `Stat` tuple as initialised in `QCL.__init__`: every field
`None`, `interval = 3`. -/
def initStat : Stat where
  wn := none
  freq := none
  pw := none
  startwn := none
  stopwn := none
  rate := none
  cycles := none
  mode := none
  pause := none
  step := none
  whours := none
  scancount := none
  interval := 3
  awn := none

/-- A freshly constructed client (before the optional `get_all()` of
`__init__`), facing a device whose pending reply bytes are `input`. -/
def mkState (log : Bool) (input : List Char) : QCLState where
  log := log
  log_file := []
  now := 0
  stat := initStat
  input := input
  trace := []

/-! ### One-step characterisations of the methods

Every getter has the same shape: log and send the query command, read a
fixed number of bytes, log the reply, strip a fixed suffix, parse, and
on success store the parsed value in `Stat`.  The following definitions
state that shape explicitly (state after the I/O, payload parsed,
success / failure outcome), and the run lemmas below prove that each
method equals its instance of the shape. -/

/-- The reply string a getter obtains: the next `n` pending bytes. -/
def readAnswer (s : QCLState) (n : ℕ) : String :=
  String.mk (s.input.take n)

/-- The numeric payload of a getter's reply: the `n`-byte answer with
its last `k` characters stripped. -/
def payload (s : QCLState) (n k : ℕ) : String :=
  sliceToNeg (readAnswer s n) k

/-- State after a getter's I/O (command logged and written, `n` bytes
read and logged) but before the parse touches `Stat`. -/
def ioState (command : String) (n : ℕ) (s : QCLState) : QCLState :=
  { s with
    log_file := if s.log then
        s.log_file ++ [((">>> ") ++ command, s.now), (("<<< ") ++ readAnswer s n, s.now + 1)]
      else s.log_file,
    now := s.now + 2,
    input := s.input.drop n,
    trace := s.trace ++ [Event.wr command, Event.rd (readAnswer s n)] }

/-- State after a setter has logged and sent its set command (no reply
bytes are consumed by the send itself). -/
def ioWriteState (command : String) (s : QCLState) : QCLState :=
  { s with
    log_file := if s.log then s.log_file ++ [((">>> ") ++ command, s.now)] else s.log_file,
    now := s.now + 1,
    trace := s.trace ++ [Event.wr command] }

/-- One-step description of a float-valued getter: send `command`, read
`n` bytes, strip `k`, parse as float; on success the parsed value is
returned and stored via `upd`, on failure the `ValueError` propagates
and `Stat` is untouched. -/
def floatRun (command : String) (n k : ℕ) (upd : Stat → ℚ → Stat) : M ℚ := fun s =>
  match pyFloat (payload s n k) with
  | some v => Res.ok v { ioState command n s with stat := upd s.stat v }
  | none => Res.err (floatError (payload s n k)) (ioState command n s)

/-- One-step description of an int-valued getter. -/
def intRun (command : String) (n k : ℕ) (upd : Stat → ℤ → Stat) : M ℤ := fun s =>
  match pyInt (payload s n k) with
  | some v => Res.ok v { ioState command n s with stat := upd s.stat v }
  | none => Res.err (intError (payload s n k)) (ioState command n s)

/-- One-step description of a gated float-valued getter on a state where
the gate is open (result wrapped in `some`). -/
def floatRunOpt (command : String) (n k : ℕ) (upd : Stat → ℚ → Stat) : M (Option ℚ) := fun s =>
  match pyFloat (payload s n k) with
  | some v => Res.ok (some v) { ioState command n s with stat := upd s.stat v }
  | none => Res.err (floatError (payload s n k)) (ioState command n s)

theorem bind_apply {α β : Type} (x : M α) (f : α → M β) (s : QCLState) :
    (x >>= f) s = match x s with
      | Res.ok a t => f a t
      | Res.err e t => Res.err e t := rfl

theorem pure_apply {α : Type} (a : α) (s : QCLState) :
    (pure a : M α) s = Res.ok a s := rfl

theorem bind_pure {α : Type} (x : M α) : (x >>= pure) = x := by
  funext s
  rw [bind_apply]
  cases x s <;> rfl

/-- Run lemma for `get_wn`. -/
theorem get_wn_run (s : QCLState) :
    get_wn s = floatRun (":laser:set?\n") 13 6 (fun st v => { st with wn := some v }) s := by
  by_cases hl : s.log <;>
    simp only [get_wn, floatRun, ioState, payload, readAnswer, bind_apply, pure_apply,
      log_write, ser_write, ser_read, floatE, modifyS, hl, if_true, if_false] <;>
    cases hp : pyFloat (sliceToNeg (String.mk (s.input.take 13)) 6) <;>
    simp [hp, List.append_assoc]

/-- Run lemma for `get_freq`. -/
theorem get_freq_run (s : QCLState) :
    get_freq s = floatRun (":pulse:freq?\n") 10 5 (fun st v => { st with freq := some v }) s := by
  by_cases hl : s.log <;>
    simp only [get_freq, floatRun, ioState, payload, readAnswer, bind_apply, pure_apply,
      log_write, ser_write, ser_read, floatE, modifyS, hl, if_true, if_false] <;>
    cases hp : pyFloat (sliceToNeg (String.mk (s.input.take 10)) 5) <;>
    simp [hp, List.append_assoc]

/-- Run lemma for `get_pw`. -/
theorem get_pw_run (s : QCLState) :
    get_pw s = floatRun (":pulse:width?\n") 10 6 (fun st v => { st with pw := some v }) s := by
  by_cases hl : s.log <;>
    simp only [get_pw, floatRun, ioState, payload, readAnswer, bind_apply, pure_apply,
      log_write, ser_write, ser_read, floatE, modifyS, hl, if_true, if_false] <;>
    cases hp : pyFloat (sliceToNeg (String.mk (s.input.take 10)) 6) <;>
    simp [hp, List.append_assoc]

/-- Run lemma for `get_startwn`. -/
theorem get_startwn_run (s : QCLState) :
    get_startwn s = floatRun (":scan:start?\n") 13 6 (fun st v => { st with startwn := some v }) s := by
  by_cases hl : s.log <;>
    simp only [get_startwn, floatRun, ioState, payload, readAnswer, bind_apply, pure_apply,
      log_write, ser_write, ser_read, floatE, modifyS, hl, if_true, if_false] <;>
    cases hp : pyFloat (sliceToNeg (String.mk (s.input.take 13)) 6) <;>
    simp [hp, List.append_assoc]

/-- Run lemma for `get_stopwn`. -/
theorem get_stopwn_run (s : QCLState) :
    get_stopwn s = floatRun (":scan:stop?\n") 13 6 (fun st v => { st with stopwn := some v }) s := by
  by_cases hl : s.log <;>
    simp only [get_stopwn, floatRun, ioState, payload, readAnswer, bind_apply, pure_apply,
      log_write, ser_write, ser_read, floatE, modifyS, hl, if_true, if_false] <;>
    cases hp : pyFloat (sliceToNeg (String.mk (s.input.take 13)) 6) <;>
    simp [hp, List.append_assoc]

/-- Run lemma for `get_rate`. -/
theorem get_rate_run (s : QCLState) :
    get_rate s = floatRun (":scan:rate?\n") 3 2 (fun st v => { st with rate := some v }) s := by
  by_cases hl : s.log <;>
    simp only [get_rate, floatRun, ioState, payload, readAnswer, bind_apply, pure_apply,
      log_write, ser_write, ser_read, floatE, modifyS, hl, if_true, if_false] <;>
    cases hp : pyFloat (sliceToNeg (String.mk (s.input.take 3)) 2) <;>
    simp [hp, List.append_assoc]

/-- Run lemma for `get_cycles`. -/
theorem get_cycles_run (s : QCLState) :
    get_cycles s = floatRun (":scan:cycles?\n") 20 2 (fun st v => { st with cycles := some v }) s := by
  by_cases hl : s.log <;>
    simp only [get_cycles, floatRun, ioState, payload, readAnswer, bind_apply, pure_apply,
      log_write, ser_write, ser_read, floatE, modifyS, hl, if_true, if_false] <;>
    cases hp : pyFloat (sliceToNeg (String.mk (s.input.take 20)) 2) <;>
    simp [hp, List.append_assoc]

/-- Run lemma for `get_mode`. -/
theorem get_mode_run (s : QCLState) :
    get_mode s = intRun (":scan:mode?\n") 3 2 (fun st v => { st with mode := some v }) s := by
  by_cases hl : s.log <;>
    simp only [get_mode, intRun, ioState, payload, readAnswer, bind_apply, pure_apply,
      log_write, ser_write, ser_read, intE, modifyS, hl, if_true, if_false] <;>
    cases hp : pyInt (sliceToNeg (String.mk (s.input.take 3)) 2) <;>
    simp [hp, List.append_assoc]

/-- Run lemma for `get_pause` with the gate open (cached mode not `2`,
which includes the unknown mode `none`). -/
theorem get_pause_run (s : QCLState) (hm : s.stat.mode ≠ some 2) :
    get_pause s = floatRunOpt (":scan:pause?\n") 9 5 (fun st v => { st with pause := some v }) s := by
  by_cases hl : s.log <;>
    simp only [get_pause, floatRunOpt, ioState, payload, readAnswer, bind_apply, pure_apply,
      getS, if_neg hm, log_write, ser_write, ser_read, floatE, modifyS, hl, if_true, if_false] <;>
    cases hp : pyFloat (sliceToNeg (String.mk (s.input.take 9)) 5) <;>
    simp [hp, List.append_assoc]

/-- `get_pause` is a pure no-op when the cached mode is `2`. -/
theorem get_pause_gated (s : QCLState) (hm : s.stat.mode = some 2) :
    get_pause s = Res.ok none s := by
  simp only [get_pause, bind_apply, getS, if_pos hm, pure_apply]

/-- Run lemma for `get_step` with the gate open (cached mode `1` or `2`). -/
theorem get_step_run (s : QCLState) (hm : s.stat.mode = some 1 ∨ s.stat.mode = some 2) :
    get_step s = floatRunOpt (":scan:step?\n") 11 6 (fun st v => { st with step := some v }) s := by
  have hm2 : ¬ ¬ (s.stat.mode = some 1 ∨ s.stat.mode = some 2) := not_not_intro hm
  by_cases hl : s.log <;>
    simp only [get_step, floatRunOpt, ioState, payload, readAnswer, bind_apply, pure_apply,
      getS, if_neg hm2, log_write, ser_write, ser_read, floatE, modifyS, hl, if_true, if_false] <;>
    cases hp : pyFloat (sliceToNeg (String.mk (s.input.take 11)) 6) <;>
    simp [hp, List.append_assoc]

/-- `get_step` is a pure no-op when the cached mode is neither `1` nor
`2` (also when it is still unknown). -/
theorem get_step_gated (s : QCLState) (hm : ¬ (s.stat.mode = some 1 ∨ s.stat.mode = some 2)) :
    get_step s = Res.ok none s := by
  simp only [get_step, bind_apply, getS, if_pos hm, pure_apply]

/-- Run lemma for `get_whours`. -/
theorem get_whours_run (s : QCLState) :
    get_whours s = floatRun (":info:hhrs?\n") 11 5 (fun st v => { st with whours := some v }) s := by
  by_cases hl : s.log <;>
    simp only [get_whours, floatRun, ioState, payload, readAnswer, bind_apply, pure_apply,
      log_write, ser_write, ser_read, floatE, modifyS, hl, if_true, if_false] <;>
    cases hp : pyFloat (sliceToNeg (String.mk (s.input.take 11)) 5) <;>
    simp [hp, List.append_assoc]

/-- Run lemma for `get_scancount`. -/
theorem get_scancount_run (s : QCLState) :
    get_scancount s = intRun (":scan:count?\n") 6 2 (fun st v => { st with scancount := some v }) s := by
  by_cases hl : s.log <;>
    simp only [get_scancount, intRun, ioState, payload, readAnswer, bind_apply, pure_apply,
      log_write, ser_write, ser_read, intE, modifyS, hl, if_true, if_false] <;>
    cases hp : pyInt (sliceToNeg (String.mk (s.input.take 6)) 2) <;>
    simp [hp, List.append_assoc]

/-- Run lemma for `get_awn`. -/
theorem get_awn_run (s : QCLState) :
    get_awn s = floatRun (":laser:pos?\n") 13 6 (fun st v => { st with awn := some v }) s := by
  by_cases hl : s.log <;>
    simp only [get_awn, floatRun, ioState, payload, readAnswer, bind_apply, pure_apply,
      log_write, ser_write, ser_read, floatE, modifyS, hl, if_true, if_false] <;>
    cases hp : pyFloat (sliceToNeg (String.mk (s.input.take 13)) 6) <;>
    simp [hp, List.append_assoc]

/-! Setter run lemmas: an out-of-range value raises before any effect; an
in-range value sends the set command and then the whole call behaves as
the confirming getter run from the post-send state. -/

theorem raise_apply (e : PyError) (s : QCLState) : (raise e : M α) s = Res.err e s := rfl

/-- `set_wn` on an out-of-range value: the `ValueError` is raised before
any effect (the state, in particular the I/O trace, is unchanged). -/
theorem set_wn_range (v : ℚ) (s : QCLState) (h : v < RangeT.wn.1 ∨ v > RangeT.wn.2) :
    set_wn v s = Res.err (rangeError v) s := by
  simp only [set_wn, if_pos h, raise_apply]

/-- `set_wn` on an in-range value: send, then confirm via `get_wn`. -/
theorem set_wn_run (v : ℚ) (s : QCLState) (h : ¬ (v < RangeT.wn.1 ∨ v > RangeT.wn.2)) :
    set_wn v s = get_wn (ioWriteState (":laser:set " ++ pyStr v ++ "\n") s) := by
  by_cases hl : s.log <;>
    simp only [set_wn, if_neg h, bind_apply, log_write, ser_write, bind_pure, ioWriteState,
      hl, if_true, if_false]

theorem set_freq_range (v : ℚ) (s : QCLState) (h : v < RangeT.freq.1 ∨ v > RangeT.freq.2) :
    set_freq v s = Res.err (rangeError v) s := by
  simp only [set_freq, if_pos h, raise_apply]

theorem set_freq_run (v : ℚ) (s : QCLState) (h : ¬ (v < RangeT.freq.1 ∨ v > RangeT.freq.2)) :
    set_freq v s = get_freq (ioWriteState (":pulse:freq " ++ pyStr v ++ "\n") s) := by
  by_cases hl : s.log <;>
    simp only [set_freq, if_neg h, bind_apply, log_write, ser_write, bind_pure, ioWriteState,
      hl, if_true, if_false]

theorem set_pw_range (v : ℚ) (s : QCLState) (h : v < RangeT.pw.1 ∨ v > RangeT.pw.2) :
    set_pw v s = Res.err (rangeError v) s := by
  simp only [set_pw, if_pos h, raise_apply]

theorem set_pw_run (v : ℚ) (s : QCLState) (h : ¬ (v < RangeT.pw.1 ∨ v > RangeT.pw.2)) :
    set_pw v s = get_pw (ioWriteState (":pulse:width " ++ pyStr v ++ "\n") s) := by
  by_cases hl : s.log <;>
    simp only [set_pw, if_neg h, bind_apply, log_write, ser_write, bind_pure, ioWriteState,
      hl, if_true, if_false]

theorem set_startwn_range (v : ℚ) (s : QCLState) (h : v < RangeT.startwn.1 ∨ v > RangeT.startwn.2) :
    set_startwn v s = Res.err (rangeError v) s := by
  simp only [set_startwn, if_pos h, raise_apply]

theorem set_startwn_run (v : ℚ) (s : QCLState) (h : ¬ (v < RangeT.startwn.1 ∨ v > RangeT.startwn.2)) :
    set_startwn v s = get_startwn (ioWriteState (":scan:start " ++ pyStr v ++ "\n") s) := by
  by_cases hl : s.log <;>
    simp only [set_startwn, if_neg h, bind_apply, log_write, ser_write, bind_pure, ioWriteState,
      hl, if_true, if_false]

theorem set_stopwn_range (v : ℚ) (s : QCLState) (h : v < RangeT.stopwn.1 ∨ v > RangeT.stopwn.2) :
    set_stopwn v s = Res.err (rangeError v) s := by
  simp only [set_stopwn, if_pos h, raise_apply]

theorem set_stopwn_run (v : ℚ) (s : QCLState) (h : ¬ (v < RangeT.stopwn.1 ∨ v > RangeT.stopwn.2)) :
    set_stopwn v s = get_stopwn (ioWriteState (":scan:stop " ++ pyStr v ++ "\n") s) := by
  by_cases hl : s.log <;>
    simp only [set_stopwn, if_neg h, bind_apply, log_write, ser_write, bind_pure, ioWriteState,
      hl, if_true, if_false]

theorem set_rate_range (v : ℚ) (s : QCLState) (h : v < RangeT.rate.1 ∨ v > RangeT.rate.2) :
    set_rate v s = Res.err (rangeError v) s := by
  simp only [set_rate, if_pos h, raise_apply]

theorem set_rate_run (v : ℚ) (s : QCLState) (h : ¬ (v < RangeT.rate.1 ∨ v > RangeT.rate.2)) :
    set_rate v s = get_rate (ioWriteState (":scan:rate " ++ pyStr v ++ "\n") s) := by
  by_cases hl : s.log <;>
    simp only [set_rate, if_neg h, bind_apply, log_write, ser_write, bind_pure, ioWriteState,
      hl, if_true, if_false]

theorem set_cycles_range (v : ℚ) (s : QCLState) (h : v < RangeT.cycles.1 ∨ v > RangeT.cycles.2) :
    set_cycles v s = Res.err (rangeError v) s := by
  simp only [set_cycles, if_pos h, raise_apply]

theorem set_cycles_run (v : ℚ) (s : QCLState) (h : ¬ (v < RangeT.cycles.1 ∨ v > RangeT.cycles.2)) :
    set_cycles v s = get_cycles (ioWriteState (":scan:cycles " ++ pyStr v ++ "\n") s) := by
  by_cases hl : s.log <;>
    simp only [set_cycles, if_neg h, bind_apply, log_write, ser_write, bind_pure, ioWriteState,
      hl, if_true, if_false]

theorem set_mode_range (v : ℚ) (s : QCLState) (h : v < RangeT.mode.1 ∨ v > RangeT.mode.2) :
    set_mode v s = Res.err (rangeError v) s := by
  simp only [set_mode, if_pos h, raise_apply]

theorem set_mode_run (v : ℚ) (s : QCLState) (h : ¬ (v < RangeT.mode.1 ∨ v > RangeT.mode.2)) :
    set_mode v s = get_mode (ioWriteState (":scan:mode " ++ toString (pyTrunc v) ++ "\n") s) := by
  by_cases hl : s.log <;>
    simp only [set_mode, if_neg h, bind_apply, log_write, ser_write, bind_pure, ioWriteState,
      hl, if_true, if_false]

/-- `set_pause` is a pure no-op when the cached mode is `2`, whatever
the value (in range or not). -/
theorem set_pause_gated (v : ℚ) (s : QCLState) (hm : s.stat.mode = some 2) :
    set_pause v s = Res.ok none s := by
  simp only [set_pause, bind_apply, getS, if_pos hm, pure_apply]

theorem set_pause_range (v : ℚ) (s : QCLState) (hm : s.stat.mode ≠ some 2)
    (h : v < RangeT.pause.1 ∨ v > RangeT.pause.2) :
    set_pause v s = Res.err (rangeError v) s := by
  simp only [set_pause, bind_apply, getS, if_neg hm, if_pos h, raise_apply]

theorem set_pause_run (v : ℚ) (s : QCLState) (hm : s.stat.mode ≠ some 2)
    (h : ¬ (v < RangeT.pause.1 ∨ v > RangeT.pause.2)) :
    set_pause v s = get_pause (ioWriteState (":scan:pause " ++ pyStr v ++ "\n") s) := by
  by_cases hl : s.log <;>
    simp only [set_pause, bind_apply, getS, if_neg hm, if_neg h, log_write, ser_write,
      bind_pure, ioWriteState, hl, if_true, if_false]

/-- `set_step` is a pure no-op when the cached mode is neither `1` nor
`2` (also when unknown), whatever the value. -/
theorem set_step_gated (v : ℚ) (s : QCLState) (hm : ¬ (s.stat.mode = some 1 ∨ s.stat.mode = some 2)) :
    set_step v s = Res.ok none s := by
  simp only [set_step, bind_apply, getS, if_pos hm, pure_apply]

theorem set_step_range (v : ℚ) (s : QCLState) (hm : s.stat.mode = some 1 ∨ s.stat.mode = some 2)
    (h : v < RangeT.step.1 ∨ v > RangeT.step.2) :
    set_step v s = Res.err (rangeError v) s := by
  have hm2 : ¬ ¬ (s.stat.mode = some 1 ∨ s.stat.mode = some 2) := not_not_intro hm
  simp only [set_step, bind_apply, getS, if_neg hm2, if_pos h, raise_apply]

theorem set_step_run (v : ℚ) (s : QCLState) (hm : s.stat.mode = some 1 ∨ s.stat.mode = some 2)
    (h : ¬ (v < RangeT.step.1 ∨ v > RangeT.step.2)) :
    set_step v s = get_step (ioWriteState (":scan:step " ++ pyStr v ++ "\n") s) := by
  have hm2 : ¬ ¬ (s.stat.mode = some 1 ∨ s.stat.mode = some 2) := not_not_intro hm
  by_cases hl : s.log <;>
    simp only [set_step, bind_apply, getS, if_neg hm2, if_neg h, log_write, ser_write,
      bind_pure, ioWriteState, hl, if_true, if_false]

theorem set_interval_range (v : ℚ) (s : QCLState) (h : v < RangeT.interval.1 ∨ v > RangeT.interval.2) :
    set_interval v s = Res.err (rangeError v) s := by
  simp only [set_interval, if_pos h, raise_apply]

/-- `set_interval` stores the caller's value directly into `Stat`, with
no serial traffic and no confirming get. -/
theorem set_interval_run (v : ℚ) (s : QCLState) (h : ¬ (v < RangeT.interval.1 ∨ v > RangeT.interval.2)) :
    set_interval v s = Res.ok v { s with stat := { s.stat with interval := v } } := by
  simp only [set_interval, if_neg h, bind_apply, modifyS, pure_apply]

theorem scan_start_run (s : QCLState) :
    scan_start s = Res.ok () (ioWriteState (":scan:run 1\n") s) := by
  by_cases hl : s.log <;>
    simp only [scan_start, bind_apply, log_write, ser_write, ioWriteState, hl, if_true, if_false]

theorem scan_stop_run (s : QCLState) :
    scan_stop s = Res.ok () (ioWriteState (":scan:run 0\n") s) := by
  by_cases hl : s.log <;>
    simp only [scan_stop, bind_apply, log_write, ser_write, ioWriteState, hl, if_true, if_false]

theorem step_next_run (s : QCLState) :
    step_next s = Res.ok () (ioWriteState (":scan:step:next\n") s) := by
  by_cases hl : s.log <;>
    simp only [step_next, bind_apply, log_write, ser_write, ioWriteState, hl, if_true, if_false]

/-! ### Inversion lemmas: what a successful run tells about the final state -/

theorem bind_ok {α β : Type} {x : M α} {f : α → M β} {s u : QCLState} {b : β}
    (h : (x >>= f) s = Res.ok b u) :
    ∃ a t, x s = Res.ok a t ∧ f a t = Res.ok b u := by
  rw [bind_apply] at h
  cases hx : x s with
  | ok a t => rw [hx] at h; exact ⟨a, t, rfl, h⟩
  | err e t => rw [hx] at h; exact Res.noConfusion h

theorem get_wn_ok {s u : QCLState} {v : ℚ} (h : get_wn s = Res.ok v u) :
    u.stat = { s.stat with wn := some v } ∧
    u.trace = s.trace ++ [Event.wr (":laser:set?\n"), Event.rd (readAnswer s 13)] := by
  rw [get_wn_run] at h
  unfold floatRun at h
  cases hp : pyFloat (payload s 13 6) <;> rw [hp] at h
  · exact Res.noConfusion h
  · injection h with h1 h2
    subst h1
    subst h2
    exact ⟨rfl, rfl⟩

theorem get_freq_ok {s u : QCLState} {v : ℚ} (h : get_freq s = Res.ok v u) :
    u.stat = { s.stat with freq := some v } ∧
    u.trace = s.trace ++ [Event.wr (":pulse:freq?\n"), Event.rd (readAnswer s 10)] := by
  rw [get_freq_run] at h
  unfold floatRun at h
  cases hp : pyFloat (payload s 10 5) <;> rw [hp] at h
  · exact Res.noConfusion h
  · injection h with h1 h2
    subst h1
    subst h2
    exact ⟨rfl, rfl⟩

theorem get_pw_ok {s u : QCLState} {v : ℚ} (h : get_pw s = Res.ok v u) :
    u.stat = { s.stat with pw := some v } ∧
    u.trace = s.trace ++ [Event.wr (":pulse:width?\n"), Event.rd (readAnswer s 10)] := by
  rw [get_pw_run] at h
  unfold floatRun at h
  cases hp : pyFloat (payload s 10 6) <;> rw [hp] at h
  · exact Res.noConfusion h
  · injection h with h1 h2
    subst h1
    subst h2
    exact ⟨rfl, rfl⟩

theorem get_startwn_ok {s u : QCLState} {v : ℚ} (h : get_startwn s = Res.ok v u) :
    u.stat = { s.stat with startwn := some v } ∧
    u.trace = s.trace ++ [Event.wr (":scan:start?\n"), Event.rd (readAnswer s 13)] := by
  rw [get_startwn_run] at h
  unfold floatRun at h
  cases hp : pyFloat (payload s 13 6) <;> rw [hp] at h
  · exact Res.noConfusion h
  · injection h with h1 h2
    subst h1
    subst h2
    exact ⟨rfl, rfl⟩

theorem get_stopwn_ok {s u : QCLState} {v : ℚ} (h : get_stopwn s = Res.ok v u) :
    u.stat = { s.stat with stopwn := some v } ∧
    u.trace = s.trace ++ [Event.wr (":scan:stop?\n"), Event.rd (readAnswer s 13)] := by
  rw [get_stopwn_run] at h
  unfold floatRun at h
  cases hp : pyFloat (payload s 13 6) <;> rw [hp] at h
  · exact Res.noConfusion h
  · injection h with h1 h2
    subst h1
    subst h2
    exact ⟨rfl, rfl⟩

theorem get_rate_ok {s u : QCLState} {v : ℚ} (h : get_rate s = Res.ok v u) :
    u.stat = { s.stat with rate := some v } ∧
    u.trace = s.trace ++ [Event.wr (":scan:rate?\n"), Event.rd (readAnswer s 3)] := by
  rw [get_rate_run] at h
  unfold floatRun at h
  cases hp : pyFloat (payload s 3 2) <;> rw [hp] at h
  · exact Res.noConfusion h
  · injection h with h1 h2
    subst h1
    subst h2
    exact ⟨rfl, rfl⟩

theorem get_cycles_ok {s u : QCLState} {v : ℚ} (h : get_cycles s = Res.ok v u) :
    u.stat = { s.stat with cycles := some v } ∧
    u.trace = s.trace ++ [Event.wr (":scan:cycles?\n"), Event.rd (readAnswer s 20)] := by
  rw [get_cycles_run] at h
  unfold floatRun at h
  cases hp : pyFloat (payload s 20 2) <;> rw [hp] at h
  · exact Res.noConfusion h
  · injection h with h1 h2
    subst h1
    subst h2
    exact ⟨rfl, rfl⟩

theorem get_mode_ok {s u : QCLState} {v : ℤ} (h : get_mode s = Res.ok v u) :
    u.stat = { s.stat with mode := some v } ∧
    u.trace = s.trace ++ [Event.wr (":scan:mode?\n"), Event.rd (readAnswer s 3)] := by
  rw [get_mode_run] at h
  unfold intRun at h
  cases hp : pyInt (payload s 3 2) <;> rw [hp] at h
  · exact Res.noConfusion h
  · injection h with h1 h2
    subst h1
    subst h2
    exact ⟨rfl, rfl⟩

theorem get_pause_ok {s u : QCLState} {r : Option ℚ} (h : get_pause s = Res.ok r u) :
    (s.stat.mode = some 2 ∧ r = none ∧ u = s) ∨
    (s.stat.mode ≠ some 2 ∧ ∃ v, r = some v ∧ u.stat = { s.stat with pause := some v } ∧
      u.trace = s.trace ++ [Event.wr (":scan:pause?\n"), Event.rd (readAnswer s 9)]) := by
  by_cases hm : s.stat.mode = some 2
  · rw [get_pause_gated s hm] at h
    injection h with h1 h2
    exact Or.inl ⟨hm, h1.symm, h2.symm⟩
  · rw [get_pause_run s hm] at h
    unfold floatRunOpt at h
    cases hp : pyFloat (payload s 9 5) <;> rw [hp] at h
    · exact Res.noConfusion h
    · injection h with h1 h2
      subst h1
      subst h2
      exact Or.inr ⟨hm, _, rfl, rfl, rfl⟩

theorem get_step_ok {s u : QCLState} {r : Option ℚ} (h : get_step s = Res.ok r u) :
    (¬ (s.stat.mode = some 1 ∨ s.stat.mode = some 2) ∧ r = none ∧ u = s) ∨
    ((s.stat.mode = some 1 ∨ s.stat.mode = some 2) ∧
      ∃ v, r = some v ∧ u.stat = { s.stat with step := some v } ∧
        u.trace = s.trace ++ [Event.wr (":scan:step?\n"), Event.rd (readAnswer s 11)]) := by
  by_cases hm : s.stat.mode = some 1 ∨ s.stat.mode = some 2
  · rw [get_step_run s hm] at h
    unfold floatRunOpt at h
    cases hp : pyFloat (payload s 11 6) <;> rw [hp] at h
    · exact Res.noConfusion h
    · injection h with h1 h2
      subst h1
      subst h2
      exact Or.inr ⟨hm, _, rfl, rfl, rfl⟩
  · rw [get_step_gated s hm] at h
    injection h with h1 h2
    exact Or.inl ⟨hm, h1.symm, h2.symm⟩

theorem get_whours_ok {s u : QCLState} {v : ℚ} (h : get_whours s = Res.ok v u) :
    u.stat = { s.stat with whours := some v } ∧
    u.trace = s.trace ++ [Event.wr (":info:hhrs?\n"), Event.rd (readAnswer s 11)] := by
  rw [get_whours_run] at h
  unfold floatRun at h
  cases hp : pyFloat (payload s 11 5) <;> rw [hp] at h
  · exact Res.noConfusion h
  · injection h with h1 h2
    subst h1
    subst h2
    exact ⟨rfl, rfl⟩

theorem get_scancount_ok {s u : QCLState} {v : ℤ} (h : get_scancount s = Res.ok v u) :
    u.stat = { s.stat with scancount := some v } ∧
    u.trace = s.trace ++ [Event.wr (":scan:count?\n"), Event.rd (readAnswer s 6)] := by
  rw [get_scancount_run] at h
  unfold intRun at h
  cases hp : pyInt (payload s 6 2) <;> rw [hp] at h
  · exact Res.noConfusion h
  · injection h with h1 h2
    subst h1
    subst h2
    exact ⟨rfl, rfl⟩

theorem get_awn_ok {s u : QCLState} {v : ℚ} (h : get_awn s = Res.ok v u) :
    u.stat = { s.stat with awn := some v } ∧
    u.trace = s.trace ++ [Event.wr (":laser:pos?\n"), Event.rd (readAnswer s 13)] := by
  rw [get_awn_run] at h
  unfold floatRun at h
  cases hp : pyFloat (payload s 13 6) <;> rw [hp] at h
  · exact Res.noConfusion h
  · injection h with h1 h2
    subst h1
    subst h2
    exact ⟨rfl, rfl⟩

/-! ### Claim theorems -/

/-- State of a client whose cached scan mode is `m` (as after a
successful `get_mode`), facing the given pending device bytes. -/
def modeState (m : ℤ) (input : List Char) : QCLState :=
  { mkState false input with stat := { initStat with mode := some m } }

/-- The C1 property: each ranged setter, applied to its out-of-range
argument, fails with the range `ValueError` carrying the offending value
and leaves the whole state — in particular the trace of written bytes —
untouched. -/
def RangeRejects (s : QCLState) (v1 v2 v3 v4 v5 v6 v7 v8 v9 v10 v11 : ℚ) : Prop :=
  set_wn v1 s = Res.err (rangeError v1) s ∧
  set_freq v2 s = Res.err (rangeError v2) s ∧
  set_pw v3 s = Res.err (rangeError v3) s ∧
  set_startwn v4 s = Res.err (rangeError v4) s ∧
  set_stopwn v5 s = Res.err (rangeError v5) s ∧
  set_rate v6 s = Res.err (rangeError v6) s ∧
  set_cycles v7 s = Res.err (rangeError v7) s ∧
  set_mode v8 s = Res.err (rangeError v8) s ∧
  set_pause v9 s = Res.err (rangeError v9) s ∧
  set_step v10 s = Res.err (rangeError v10) s ∧
  set_interval v11 s = Res.err (rangeError v11) s

/-- C1: for every settable parameter with a defined range (wn, freq, pw,
startwn, stopwn, rate, cycles, mode, pause, step, interval), calling the
setter with a value strictly below the minimum or strictly above the
maximum raises the range `ValueError` carrying the offending value, and
no bytes are written before the failure (the state is unchanged).  For
the mode-gated parameters pause and step this holds on states where the
gate is open (cached mode not `2`, resp. `1` or `2`); when the gate is
closed the call is a no-op instead (claim C3). -/
theorem claim_C1 (s : QCLState) (v1 v2 v3 v4 v5 v6 v7 v8 v9 v10 v11 : ℚ)
    (h1 : v1 < RangeT.wn.1 ∨ v1 > RangeT.wn.2)
    (h2 : v2 < RangeT.freq.1 ∨ v2 > RangeT.freq.2)
    (h3 : v3 < RangeT.pw.1 ∨ v3 > RangeT.pw.2)
    (h4 : v4 < RangeT.startwn.1 ∨ v4 > RangeT.startwn.2)
    (h5 : v5 < RangeT.stopwn.1 ∨ v5 > RangeT.stopwn.2)
    (h6 : v6 < RangeT.rate.1 ∨ v6 > RangeT.rate.2)
    (h7 : v7 < RangeT.cycles.1 ∨ v7 > RangeT.cycles.2)
    (h8 : v8 < RangeT.mode.1 ∨ v8 > RangeT.mode.2)
    (h9 : v9 < RangeT.pause.1 ∨ v9 > RangeT.pause.2)
    (h10 : v10 < RangeT.step.1 ∨ v10 > RangeT.step.2)
    (h11 : v11 < RangeT.interval.1 ∨ v11 > RangeT.interval.2)
    (hgp : s.stat.mode ≠ some 2)
    (hgs : s.stat.mode = some 1 ∨ s.stat.mode = some 2) :
    RangeRejects s v1 v2 v3 v4 v5 v6 v7 v8 v9 v10 v11 :=
  ⟨set_wn_range v1 s h1, set_freq_range v2 s h2, set_pw_range v3 s h3,
    set_startwn_range v4 s h4, set_stopwn_range v5 s h5, set_rate_range v6 s h6,
    set_cycles_range v7 s h7, set_mode_range v8 s h8,
    set_pause_range v9 s hgp h9, set_step_range v10 s hgs h10,
    set_interval_range v11 s h11⟩

/-- Witness for C1 at a concrete state (cached mode `1`, both gates
open) and one concrete out-of-range value per parameter. -/
theorem claim_C1_witness :
    RangeRejects (modeState 1 []) 2000 0.5 1 900 2000 7 0 5 (-1) 300 0.5 :=
  claim_C1 (modeState 1 []) 2000 0.5 1 900 2000 7 0 5 (-1) 300 0.5
    (by norm_num [RangeT]) (by norm_num [RangeT]) (by norm_num [RangeT])
    (by norm_num [RangeT]) (by norm_num [RangeT]) (by norm_num [RangeT])
    (by norm_num [RangeT]) (by norm_num [RangeT]) (by norm_num [RangeT])
    (by norm_num [RangeT]) (by norm_num [RangeT])
    (by decide) (by decide)

/-- C3: with cached scan mode `2`, `get_pause` and `set_pause` (for any
value, in range or not) perform no serial I/O, leave the whole state —
in particular the `Stat` snapshot — unchanged, return the absent result
`none`, and never raise; with a cached mode that is neither `1` nor `2`
(e.g. `3`), `get_step` and `set_step` behave the same way. -/
theorem claim_C3 (s t : QCLState) (x y : ℚ) (m : ℤ)
    (hs : s.stat.mode = some 2)
    (ht : t.stat.mode = some m) (hm1 : m ≠ 1) (hm2 : m ≠ 2) :
    get_pause s = Res.ok none s ∧ set_pause x s = Res.ok none s ∧
    get_step t = Res.ok none t ∧ set_step y t = Res.ok none t := by
  have htm : ¬ (t.stat.mode = some 1 ∨ t.stat.mode = some 2) := by
    rw [ht]
    rintro (hh | hh)
    · exact hm1 (Option.some.inj hh)
    · exact hm2 (Option.some.inj hh)
  exact ⟨get_pause_gated s hs, set_pause_gated x s hs,
    get_step_gated t htm, set_step_gated y t htm⟩

/-- Witness for C3: cached mode `2` gates pause (even for the
out-of-range value `-5`), cached mode `3` gates step. -/
theorem claim_C3_witness :
    get_pause (modeState 2 []) = Res.ok none (modeState 2 []) ∧
    set_pause (-5) (modeState 2 []) = Res.ok none (modeState 2 []) ∧
    get_step (modeState 3 []) = Res.ok none (modeState 3 []) ∧
    set_step 1 (modeState 3 []) = Res.ok none (modeState 3 []) :=
  claim_C3 (modeState 2 []) (modeState 3 []) (-5) 1 3
    (by decide) (by decide) (by decide) (by decide)

/-- C10: while the cached scan mode is still unknown (`none`, e.g. a
client constructed with `getall` disabled), the two gated parameters
behave asymmetrically: `get_step` and `set_step` are no-ops returning
the absent result (`None == 1 or None == 2` is false, so the
`not (...)` gate closes), whereas `get_pause` and `set_pause` perform
the full serial round trip (`None == 2` is false, so that gate stays
open). -/
theorem claim_C10 (s : QCLState) (x y : ℚ)
    (hs : s.stat.mode = none)
    (hy : ¬ (y < RangeT.pause.1 ∨ y > RangeT.pause.2)) :
    get_step s = Res.ok none s ∧ set_step x s = Res.ok none s ∧
    get_pause s = floatRunOpt (":scan:pause?\n") 9 5 (fun st v => { st with pause := some v }) s ∧
    set_pause y s = get_pause (ioWriteState ((":scan:pause ") ++ pyStr y ++ "\n") s) := by
  have hn2 : s.stat.mode ≠ some 2 := by simp [hs]
  have hn12 : ¬ (s.stat.mode = some 1 ∨ s.stat.mode = some 2) := by simp [hs]
  exact ⟨get_step_gated s hn12, set_step_gated x s hn12,
    get_pause_run s hn2, set_pause_run y s hn2 hy⟩

/-- Witness for C10 at a freshly constructed (no `get_all`) client with
a 9-byte pause reply pending. -/
theorem claim_C10_witness :
    get_step (mkState false (("1.50 s  \n").data)) = Res.ok none (mkState false (("1.50 s  \n").data)) ∧
    set_step 300 (mkState false (("1.50 s  \n").data)) = Res.ok none (mkState false (("1.50 s  \n").data)) ∧
    get_pause (mkState false (("1.50 s  \n").data)) =
      floatRunOpt (":scan:pause?\n") 9 5 (fun st v => { st with pause := some v })
        (mkState false (("1.50 s  \n").data)) ∧
    set_pause 2.5 (mkState false (("1.50 s  \n").data)) =
      get_pause (ioWriteState ((":scan:pause ") ++ pyStr 2.5 ++ "\n")
        (mkState false (("1.50 s  \n").data))) :=
  claim_C10 (mkState false (("1.50 s  \n").data)) 300 2.5 (by decide) (by norm_num [RangeT])

/-- The C4 property: every getter sends exactly its table command, reads
exactly its table byte count, strips exactly its table suffix length and
parses the remainder with its table numeric type; a failed parse raises,
with the whole `Stat` snapshot untouched (the `floatRun` / `intRun` /
`floatRunOpt` forms make all of this explicit).  The eleven ungated
getters are taken at `s`, the two gated ones at a state `t` whose mode
leaves their gates open. -/
def GetterContract (s t : QCLState) : Prop :=
  get_wn s = floatRun (":laser:set?\n") 13 6 (fun st v => { st with wn := some v }) s ∧
  get_freq s = floatRun (":pulse:freq?\n") 10 5 (fun st v => { st with freq := some v }) s ∧
  get_pw s = floatRun (":pulse:width?\n") 10 6 (fun st v => { st with pw := some v }) s ∧
  get_startwn s = floatRun (":scan:start?\n") 13 6 (fun st v => { st with startwn := some v }) s ∧
  get_stopwn s = floatRun (":scan:stop?\n") 13 6 (fun st v => { st with stopwn := some v }) s ∧
  get_rate s = floatRun (":scan:rate?\n") 3 2 (fun st v => { st with rate := some v }) s ∧
  get_cycles s = floatRun (":scan:cycles?\n") 20 2 (fun st v => { st with cycles := some v }) s ∧
  get_mode s = intRun (":scan:mode?\n") 3 2 (fun st v => { st with mode := some v }) s ∧
  get_whours s = floatRun (":info:hhrs?\n") 11 5 (fun st v => { st with whours := some v }) s ∧
  get_scancount s = intRun (":scan:count?\n") 6 2 (fun st v => { st with scancount := some v }) s ∧
  get_awn s = floatRun (":laser:pos?\n") 13 6 (fun st v => { st with awn := some v }) s ∧
  get_pause t = floatRunOpt (":scan:pause?\n") 9 5 (fun st v => { st with pause := some v }) t ∧
  get_step t = floatRunOpt (":scan:step?\n") 11 6 (fun st v => { st with step := some v }) t

/-- C4: the command / reply-length / suffix / numeric-type contract of
the section-6 table holds for every gettable parameter, and a parse
failure (short or malformed reply) propagates as a `ValueError` leaving
the state snapshot unmodified. -/
theorem claim_C4 (s t : QCLState) (hgp : t.stat.mode ≠ some 2)
    (hgs : t.stat.mode = some 1 ∨ t.stat.mode = some 2) :
    GetterContract s t :=
  ⟨get_wn_run s, get_freq_run s, get_pw_run s, get_startwn_run s, get_stopwn_run s,
    get_rate_run s, get_cycles_run s, get_mode_run s, get_whours_run s,
    get_scancount_run s, get_awn_run s, get_pause_run t hgp, get_step_run t hgs⟩

/-- Witness for C4: a fresh client with no pending bytes (every parse
fails on the empty payload, exercising the error branches) and a second
state with cached mode `1` for the gated getters. -/
theorem claim_C4_witness : GetterContract (mkState false []) (modeState 1 []) :=
  claim_C4 (mkState false []) (modeState 1 []) (by decide) (by decide)

/-- When a `ℚ`-returning run succeeds, the designated snapshot field
equals the returned value; when it raises, nothing is asserted. -/
def confirmsF (r : Res ℚ) (f : Stat → Option ℚ) : Prop :=
  match r with
  | Res.ok a t => f t.stat = some a
  | Res.err _ _ => True

/-- As `confirmsF`, for `ℤ`-returning runs. -/
def confirmsI (r : Res ℤ) (f : Stat → Option ℤ) : Prop :=
  match r with
  | Res.ok a t => f t.stat = some a
  | Res.err _ _ => True

/-- As `confirmsF`, for gated (`Option ℚ`-returning) runs. -/
def confirmsO (r : Res (Option ℚ)) (f : Stat → Option ℚ) : Prop :=
  match r with
  | Res.ok a t => f t.stat = a
  | Res.err _ _ => True

theorem floatRun_confirms (cmd : String) (n k : ℕ) (upd : Stat → ℚ → Stat)
    (f : Stat → Option ℚ) (hupd : ∀ st v, f (upd st v) = some v) (s : QCLState) :
    confirmsF (floatRun cmd n k upd s) f := by
  unfold floatRun confirmsF
  cases pyFloat (payload s n k) <;> simp [hupd]

theorem intRun_confirms (cmd : String) (n k : ℕ) (upd : Stat → ℤ → Stat)
    (f : Stat → Option ℤ) (hupd : ∀ st v, f (upd st v) = some v) (s : QCLState) :
    confirmsI (intRun cmd n k upd s) f := by
  unfold intRun confirmsI
  cases pyInt (payload s n k) <;> simp [hupd]

theorem floatRunOpt_confirms (cmd : String) (n k : ℕ) (upd : Stat → ℚ → Stat)
    (f : Stat → Option ℚ) (hupd : ∀ st v, f (upd st v) = some v) (s : QCLState) :
    confirmsO (floatRunOpt cmd n k upd s) f := by
  unfold floatRunOpt confirmsO
  cases pyFloat (payload s n k) <;> simp [hupd]

/-- The C2 property, per settable device parameter (at an in-range
value): the setter first sends its set command line, then behaves
exactly as the confirming getter run from the post-send state (so the
returned value is the one parsed from the confirming reply — the
device's bytes, still pending in `input`, not the caller's argument) and
on success the snapshot field equals that returned value. -/
def SetterContract (s : QCLState) (v1 v2 v3 v4 v5 v6 v7 v8 v9 v10 : ℚ) : Prop :=
  (set_wn v1 s = get_wn (ioWriteState ((":laser:set ") ++ pyStr v1 ++ "\n") s) ∧
    set_wn v1 s = floatRun (":laser:set?\n") 13 6 (fun st v => { st with wn := some v })
      (ioWriteState ((":laser:set ") ++ pyStr v1 ++ "\n") s) ∧
    confirmsF (set_wn v1 s) Stat.wn) ∧
  (set_freq v2 s = get_freq (ioWriteState ((":pulse:freq ") ++ pyStr v2 ++ "\n") s) ∧
    set_freq v2 s = floatRun (":pulse:freq?\n") 10 5 (fun st v => { st with freq := some v })
      (ioWriteState ((":pulse:freq ") ++ pyStr v2 ++ "\n") s) ∧
    confirmsF (set_freq v2 s) Stat.freq) ∧
  (set_pw v3 s = get_pw (ioWriteState ((":pulse:width ") ++ pyStr v3 ++ "\n") s) ∧
    set_pw v3 s = floatRun (":pulse:width?\n") 10 6 (fun st v => { st with pw := some v })
      (ioWriteState ((":pulse:width ") ++ pyStr v3 ++ "\n") s) ∧
    confirmsF (set_pw v3 s) Stat.pw) ∧
  (set_startwn v4 s = get_startwn (ioWriteState ((":scan:start ") ++ pyStr v4 ++ "\n") s) ∧
    set_startwn v4 s = floatRun (":scan:start?\n") 13 6 (fun st v => { st with startwn := some v })
      (ioWriteState ((":scan:start ") ++ pyStr v4 ++ "\n") s) ∧
    confirmsF (set_startwn v4 s) Stat.startwn) ∧
  (set_stopwn v5 s = get_stopwn (ioWriteState ((":scan:stop ") ++ pyStr v5 ++ "\n") s) ∧
    set_stopwn v5 s = floatRun (":scan:stop?\n") 13 6 (fun st v => { st with stopwn := some v })
      (ioWriteState ((":scan:stop ") ++ pyStr v5 ++ "\n") s) ∧
    confirmsF (set_stopwn v5 s) Stat.stopwn) ∧
  (set_rate v6 s = get_rate (ioWriteState ((":scan:rate ") ++ pyStr v6 ++ "\n") s) ∧
    set_rate v6 s = floatRun (":scan:rate?\n") 3 2 (fun st v => { st with rate := some v })
      (ioWriteState ((":scan:rate ") ++ pyStr v6 ++ "\n") s) ∧
    confirmsF (set_rate v6 s) Stat.rate) ∧
  (set_cycles v7 s = get_cycles (ioWriteState ((":scan:cycles ") ++ pyStr v7 ++ "\n") s) ∧
    set_cycles v7 s = floatRun (":scan:cycles?\n") 20 2 (fun st v => { st with cycles := some v })
      (ioWriteState ((":scan:cycles ") ++ pyStr v7 ++ "\n") s) ∧
    confirmsF (set_cycles v7 s) Stat.cycles) ∧
  (set_mode v8 s = get_mode (ioWriteState ((":scan:mode ") ++ toString (pyTrunc v8) ++ "\n") s) ∧
    set_mode v8 s = intRun (":scan:mode?\n") 3 2 (fun st v => { st with mode := some v })
      (ioWriteState ((":scan:mode ") ++ toString (pyTrunc v8) ++ "\n") s) ∧
    confirmsI (set_mode v8 s) Stat.mode) ∧
  (set_pause v9 s = get_pause (ioWriteState ((":scan:pause ") ++ pyStr v9 ++ "\n") s) ∧
    set_pause v9 s = floatRunOpt (":scan:pause?\n") 9 5 (fun st v => { st with pause := some v })
      (ioWriteState ((":scan:pause ") ++ pyStr v9 ++ "\n") s) ∧
    confirmsO (set_pause v9 s) Stat.pause) ∧
  (set_step v10 s = get_step (ioWriteState ((":scan:step ") ++ pyStr v10 ++ "\n") s) ∧
    set_step v10 s = floatRunOpt (":scan:step?\n") 11 6 (fun st v => { st with step := some v })
      (ioWriteState ((":scan:step ") ++ pyStr v10 ++ "\n") s) ∧
    confirmsO (set_step v10 s) Stat.step)

/-- C2: for every settable device parameter and every in-range value,
the setter sends the set command line and then immediately performs the
confirming get; the returned value is the one parsed from that
confirming reply (the device's reported value, not the caller's
argument), and on success the snapshot field equals the returned value.
For pause and step this is taken on a state whose cached mode leaves
their gates open (a closed gate makes the call a no-op instead, claim
C3). -/
theorem claim_C2 (s : QCLState) (v1 v2 v3 v4 v5 v6 v7 v8 v9 v10 : ℚ)
    (h1 : ¬ (v1 < RangeT.wn.1 ∨ v1 > RangeT.wn.2))
    (h2 : ¬ (v2 < RangeT.freq.1 ∨ v2 > RangeT.freq.2))
    (h3 : ¬ (v3 < RangeT.pw.1 ∨ v3 > RangeT.pw.2))
    (h4 : ¬ (v4 < RangeT.startwn.1 ∨ v4 > RangeT.startwn.2))
    (h5 : ¬ (v5 < RangeT.stopwn.1 ∨ v5 > RangeT.stopwn.2))
    (h6 : ¬ (v6 < RangeT.rate.1 ∨ v6 > RangeT.rate.2))
    (h7 : ¬ (v7 < RangeT.cycles.1 ∨ v7 > RangeT.cycles.2))
    (h8 : ¬ (v8 < RangeT.mode.1 ∨ v8 > RangeT.mode.2))
    (h9 : ¬ (v9 < RangeT.pause.1 ∨ v9 > RangeT.pause.2))
    (h10 : ¬ (v10 < RangeT.step.1 ∨ v10 > RangeT.step.2))
    (hgp : s.stat.mode ≠ some 2)
    (hgs : s.stat.mode = some 1 ∨ s.stat.mode = some 2) :
    SetterContract s v1 v2 v3 v4 v5 v6 v7 v8 v9 v10 := by
  have hgp2 : (ioWriteState ((":scan:pause ") ++ pyStr v9 ++ "\n") s).stat.mode ≠ some 2 := hgp
  have hgs2 : (ioWriteState ((":scan:step ") ++ pyStr v10 ++ "\n") s).stat.mode = some 1 ∨
      (ioWriteState ((":scan:step ") ++ pyStr v10 ++ "\n") s).stat.mode = some 2 := hgs
  refine ⟨⟨set_wn_run v1 s h1, (set_wn_run v1 s h1).trans (get_wn_run _), ?_⟩,
    ⟨set_freq_run v2 s h2, (set_freq_run v2 s h2).trans (get_freq_run _), ?_⟩,
    ⟨set_pw_run v3 s h3, (set_pw_run v3 s h3).trans (get_pw_run _), ?_⟩,
    ⟨set_startwn_run v4 s h4, (set_startwn_run v4 s h4).trans (get_startwn_run _), ?_⟩,
    ⟨set_stopwn_run v5 s h5, (set_stopwn_run v5 s h5).trans (get_stopwn_run _), ?_⟩,
    ⟨set_rate_run v6 s h6, (set_rate_run v6 s h6).trans (get_rate_run _), ?_⟩,
    ⟨set_cycles_run v7 s h7, (set_cycles_run v7 s h7).trans (get_cycles_run _), ?_⟩,
    ⟨set_mode_run v8 s h8, (set_mode_run v8 s h8).trans (get_mode_run _), ?_⟩,
    ⟨set_pause_run v9 s hgp h9, (set_pause_run v9 s hgp h9).trans (get_pause_run _ hgp2), ?_⟩,
    ⟨set_step_run v10 s hgs h10, (set_step_run v10 s hgs h10).trans (get_step_run _ hgs2), ?_⟩⟩
  · rw [set_wn_run v1 s h1, get_wn_run]
    exact floatRun_confirms _ _ _ _ Stat.wn (fun st v => rfl) _
  · rw [set_freq_run v2 s h2, get_freq_run]
    exact floatRun_confirms _ _ _ _ Stat.freq (fun st v => rfl) _
  · rw [set_pw_run v3 s h3, get_pw_run]
    exact floatRun_confirms _ _ _ _ Stat.pw (fun st v => rfl) _
  · rw [set_startwn_run v4 s h4, get_startwn_run]
    exact floatRun_confirms _ _ _ _ Stat.startwn (fun st v => rfl) _
  · rw [set_stopwn_run v5 s h5, get_stopwn_run]
    exact floatRun_confirms _ _ _ _ Stat.stopwn (fun st v => rfl) _
  · rw [set_rate_run v6 s h6, get_rate_run]
    exact floatRun_confirms _ _ _ _ Stat.rate (fun st v => rfl) _
  · rw [set_cycles_run v7 s h7, get_cycles_run]
    exact floatRun_confirms _ _ _ _ Stat.cycles (fun st v => rfl) _
  · rw [set_mode_run v8 s h8, get_mode_run]
    exact intRun_confirms _ _ _ _ Stat.mode (fun st v => rfl) _
  · rw [set_pause_run v9 s hgp h9, get_pause_run _ hgp2]
    exact floatRunOpt_confirms _ _ _ _ Stat.pause (fun st v => rfl) _
  · rw [set_step_run v10 s hgs h10, get_step_run _ hgs2]
    exact floatRunOpt_confirms _ _ _ _ Stat.step (fun st v => rfl) _

/-- Witness for C2 at a concrete gate-open state and one in-range value
per parameter. -/
theorem claim_C2_witness :
    SetterContract (modeState 1 []) 1000 50 0.1 1000 1200 3 50 1 2 25 :=
  claim_C2 (modeState 1 []) 1000 50 0.1 1000 1200 3 50 1 2 25
    (by norm_num [RangeT]) (by norm_num [RangeT]) (by norm_num [RangeT])
    (by norm_num [RangeT]) (by norm_num [RangeT]) (by norm_num [RangeT])
    (by norm_num [RangeT]) (by norm_num [RangeT]) (by norm_num [RangeT])
    (by norm_num [RangeT]) (by decide) (by decide)

/-- State after one scancount poll that parsed the count `c`. -/
def pollState (s : QCLState) (c : ℤ) : QCLState :=
  { ioState (":scan:count?\n") 6 s with stat := { s.stat with scancount := some c } }

/-- State after a `sleep t` (only the event trace grows). -/
def slState (t : ℚ) (s : QCLState) : QCLState :=
  { s with trace := s.trace ++ [Event.sl t] }

/-- One `wait_for_finish` loop iteration whose poll parses a nonzero
count: the loop sleeps the interval and continues. -/
theorem wfLoop_succ_pos (i : ℚ) (n : ℕ) (s : QCLState) (c : ℤ) (l : List Char)
    (hin : s.input = l) (hc : pyInt (sliceToNeg (String.mk (l.take 6)) 2) = some c)
    (h0 : ¬ c = 0) :
    wfLoop i (n + 1) s = wfLoop i n (slState i (pollState s c)) := by
  have hc2 : pyInt (payload s 6 2) = some c := by
    rw [payload, readAnswer, hin]; exact hc
  simp only [wfLoop, bind_apply, get_scancount_run s, intRun, hc2, getS, pure_apply,
    sleep, slState, pollState, Option.some.injEq, h0, if_false]

/-- One `wait_for_finish` loop iteration whose poll parses the count 0:
the loop returns at once, with no further sleep or query. -/
theorem wfLoop_succ_zero (i : ℚ) (n : ℕ) (s : QCLState) (l : List Char)
    (hin : s.input = l) (hc : pyInt (sliceToNeg (String.mk (l.take 6)) 2) = some 0) :
    wfLoop i (n + 1) s = Res.ok () (pollState s 0) := by
  have hc2 : pyInt (payload s 6 2) = some (0 : ℤ) := by
    rw [payload, readAnswer, hin]; exact hc
  simp only [wfLoop, bind_apply, get_scancount_run s, intRun, hc2, getS, pure_apply,
    pollState, if_true, if_pos]

/-- C6: synchronous completion polling against a device whose successive
scan-count replies are 3, 2, 1, 0 performs exactly four scancount
queries, sleeps the configured interval exactly once after each of the
first three (nonzero) polls, and returns immediately after the fourth
poll observes 0, with no further sleep or query — whatever the
configured interval and however much loop fuel beyond the four
iterations remains. -/
theorem claim_C6 (interval : ℚ) (extra : ℕ) :
    wait_for_finish interval (extra + 4)
        (mkState false (("   3\r\n   2\r\n   1\r\n   0\r\n").data)) =
      Res.ok ()
        { log := false, log_file := [], now := 8,
          stat := { initStat with scancount := some 0 }, input := [],
          trace := [Event.wr (":scan:count?\n"), Event.rd ("   3\r\n"), Event.sl interval,
            Event.wr (":scan:count?\n"), Event.rd ("   2\r\n"), Event.sl interval,
            Event.wr (":scan:count?\n"), Event.rd ("   1\r\n"), Event.sl interval,
            Event.wr (":scan:count?\n"), Event.rd ("   0\r\n")] } := by
  calc wait_for_finish interval (extra + 4)
          (mkState false (("   3\r\n   2\r\n   1\r\n   0\r\n").data))
      = wfLoop interval (extra + 3 + 1)
          (mkState false (("   3\r\n   2\r\n   1\r\n   0\r\n").data)) := rfl
    _ = wfLoop interval (extra + 2 + 1)
          { log := false, log_file := [], now := 2,
            stat := { initStat with scancount := some 3 },
            input := (("   2\r\n   1\r\n   0\r\n").data),
            trace := [Event.wr (":scan:count?\n"), Event.rd ("   3\r\n"),
              Event.sl interval] } :=
        wfLoop_succ_pos interval (extra + 3) _ 3
          (("   3\r\n   2\r\n   1\r\n   0\r\n").data) rfl (by decide) (by decide)
    _ = wfLoop interval (extra + 1 + 1)
          { log := false, log_file := [], now := 4,
            stat := { initStat with scancount := some 2 },
            input := (("   1\r\n   0\r\n").data),
            trace := [Event.wr (":scan:count?\n"), Event.rd ("   3\r\n"), Event.sl interval,
              Event.wr (":scan:count?\n"), Event.rd ("   2\r\n"), Event.sl interval] } :=
        wfLoop_succ_pos interval (extra + 2) _ 2
          (("   2\r\n   1\r\n   0\r\n").data) rfl (by decide) (by decide)
    _ = wfLoop interval (extra + 0 + 1)
          { log := false, log_file := [], now := 6,
            stat := { initStat with scancount := some 1 },
            input := (("   0\r\n").data),
            trace := [Event.wr (":scan:count?\n"), Event.rd ("   3\r\n"), Event.sl interval,
              Event.wr (":scan:count?\n"), Event.rd ("   2\r\n"), Event.sl interval,
              Event.wr (":scan:count?\n"), Event.rd ("   1\r\n"), Event.sl interval] } :=
        wfLoop_succ_pos interval (extra + 1) _ 1
          (("   1\r\n   0\r\n").data) rfl (by decide) (by decide)
    _ = Res.ok ()
          { log := false, log_file := [], now := 8,
            stat := { initStat with scancount := some 0 }, input := [],
            trace := [Event.wr (":scan:count?\n"), Event.rd ("   3\r\n"), Event.sl interval,
              Event.wr (":scan:count?\n"), Event.rd ("   2\r\n"), Event.sl interval,
              Event.wr (":scan:count?\n"), Event.rd ("   1\r\n"), Event.sl interval,
              Event.wr (":scan:count?\n"), Event.rd ("   0\r\n")] } :=
        wfLoop_succ_zero interval (extra + 0) _ (("   0\r\n").data) rfl (by decide)

/-- The commands written to the serial port, in order, extracted from an
event trace. -/
def writesOf (tr : List Event) : List String :=
  tr.filterMap (fun e => match e with
    | Event.wr c => some c
    | Event.rd _ => none
    | Event.sl _ => none)

theorem writesOf_append (a b : List Event) :
    writesOf (a ++ b) = writesOf a ++ writesOf b :=
  List.filterMap_append a b _

/-- The query commands `get_all` sends, in the declared order of the
`_query` tuple, given the scan mode `m` it reads on the way (the gated
pause / step queries are skipped when their gate is closed under `m`). -/
def queryCmds (m : Option ℤ) : List String :=
  [(":laser:set?\n"), (":pulse:freq?\n"), (":pulse:width?\n"), (":scan:start?\n"),
    (":scan:stop?\n"), (":scan:rate?\n"), (":scan:cycles?\n"), (":scan:mode?\n")] ++
  (if m = some 2 then [] else [(":scan:pause?\n")]) ++
  (if m = some 1 ∨ m = some 2 then [(":scan:step?\n")] else []) ++
  [(":info:hhrs?\n"), (":scan:count?\n"), (":laser:pos?\n")]

/-- The C5 property: whenever `get_all` succeeds, it has queried every
parameter in the declared order (skipping a gated query exactly when the
freshly read mode closes its gate), every ungated field of the returned
snapshot is populated, a gated-but-inapplicable field is left exactly as
it was, and the returned snapshot is the final cached one. -/
def getAllPost (s : QCLState) : Prop :=
  match get_all s with
  | Res.err _ _ => True
  | Res.ok st u =>
    st = u.stat ∧
    st.wn.isSome = true ∧ st.freq.isSome = true ∧ st.pw.isSome = true ∧
    st.startwn.isSome = true ∧ st.stopwn.isSome = true ∧ st.rate.isSome = true ∧
    st.cycles.isSome = true ∧ st.mode.isSome = true ∧ st.whours.isSome = true ∧
    st.scancount.isSome = true ∧ st.awn.isSome = true ∧
    writesOf u.trace = writesOf s.trace ++ queryCmds st.mode ∧
    (match st.mode with
     | some 1 => st.pause.isSome = true ∧ st.step.isSome = true
     | some 2 => st.pause = s.stat.pause ∧ st.step.isSome = true
     | _ => st.pause.isSome = true ∧ st.step = s.stat.step)

/-- C5: `get_all` performs a get for every gettable parameter in the
declared order of the `_query` tuple (wn, freq, pw, startwn, stopwn,
rate, cycles, mode, pause, step, whours, scancount, awn), populating
every ungated parameter's field in the snapshot, leaving the field of a
gated-but-currently-inapplicable parameter untouched, and returning the
resulting snapshot. -/
theorem claim_C5 (s : QCLState) : getAllPost s := by
  unfold getAllPost
  cases hr : get_all s with
  | err e u => trivial
  | ok st u =>
    unfold get_all at hr
    obtain ⟨a1, t1, h1, hr⟩ := bind_ok hr
    obtain ⟨a2, t2, h2, hr⟩ := bind_ok hr
    obtain ⟨a3, t3, h3, hr⟩ := bind_ok hr
    obtain ⟨a4, t4, h4, hr⟩ := bind_ok hr
    obtain ⟨a5, t5, h5, hr⟩ := bind_ok hr
    obtain ⟨a6, t6, h6, hr⟩ := bind_ok hr
    obtain ⟨a7, t7, h7, hr⟩ := bind_ok hr
    obtain ⟨a8, t8, h8, hr⟩ := bind_ok hr
    obtain ⟨a9, t9, h9, hr⟩ := bind_ok hr
    obtain ⟨a10, t10, h10, hr⟩ := bind_ok hr
    obtain ⟨a11, t11, h11, hr⟩ := bind_ok hr
    obtain ⟨a12, t12, h12, hr⟩ := bind_ok hr
    obtain ⟨a13, t13, h13, hr⟩ := bind_ok hr
    simp only [bind_apply, getS, pure_apply] at hr
    injection hr with hst hu
    subst hst
    subst hu
    obtain ⟨e1s, e1t⟩ := get_wn_ok h1
    obtain ⟨e2s, e2t⟩ := get_freq_ok h2
    obtain ⟨e3s, e3t⟩ := get_pw_ok h3
    obtain ⟨e4s, e4t⟩ := get_startwn_ok h4
    obtain ⟨e5s, e5t⟩ := get_stopwn_ok h5
    obtain ⟨e6s, e6t⟩ := get_rate_ok h6
    obtain ⟨e7s, e7t⟩ := get_cycles_ok h7
    obtain ⟨e8s, e8t⟩ := get_mode_ok h8
    obtain ⟨e11s, e11t⟩ := get_whours_ok h11
    obtain ⟨e12s, e12t⟩ := get_scancount_ok h12
    obtain ⟨e13s, e13t⟩ := get_awn_ok h13
    have hm8 : t8.stat.mode = some a8 := by rw [e8s]
    rcases get_pause_ok h9 with ⟨hm9, hr9, hu9⟩ | ⟨hm9, v9, hr9, e9s, e9t⟩
    · -- pause gated: the freshly read mode is 2, so the step gate is open
      subst hu9
      have ha8 : a8 = 2 := by rw [hm8] at hm9; exact Option.some.inj hm9
      subst ha8
      rcases get_step_ok h10 with ⟨hm10, hr10, hu10⟩ | ⟨hm10, v10, hr10, e10s, e10t⟩
      · exact absurd (Or.inr hm9) hm10
      · simp only [e13s, e12s, e11s, e10s, e8s, e7s, e6s, e5s, e4s, e3s, e2s, e1s,
          e13t, e12t, e11t, e10t, e8t, e7t, e6t, e5t, e4t, e3t, e2t, e1t,
          writesOf_append, writesOf, queryCmds, List.filterMap_cons, List.filterMap_nil,
          Option.isSome_some, List.append_assoc, List.nil_append, List.append_nil]
        simp
    · -- pause ungated: the freshly read mode is not 2
      have ha8 : a8 ≠ 2 := by
        intro hx
        rw [hx] at hm8
        exact hm9 hm8
      have hm9t : t9.stat.mode = some a8 := by rw [e9s]; exact hm8
      rcases get_step_ok h10 with ⟨hm10, hr10, hu10⟩ | ⟨hm10, v10, hr10, e10s, e10t⟩
      · -- step gated: mode is neither 1 nor 2
        subst hu10
        have ha81 : a8 ≠ 1 := by
          intro hx
          rw [hx] at hm9t
          exact hm10 (Or.inl hm9t)
        simp only [e13s, e12s, e11s, e9s, e8s, e7s, e6s, e5s, e4s, e3s, e2s, e1s,
          e13t, e12t, e11t, e9t, e8t, e7t, e6t, e5t, e4t, e3t, e2t, e1t,
          writesOf_append, writesOf, queryCmds, List.filterMap_cons, List.filterMap_nil,
          Option.isSome_some, List.append_assoc, List.nil_append, List.append_nil]
        simp [ha8, ha81]
      · -- step ungated: mode is 1
        have ha81 : a8 = 1 := by
          rcases hm10 with hx | hx
          · rw [hm9t] at hx
            exact Option.some.inj hx
          · rw [hm9t] at hx
            exact absurd (Option.some.inj hx) ha8
        subst ha81
        simp only [e13s, e12s, e11s, e10s, e9s, e8s, e7s, e6s, e5s, e4s, e3s, e2s, e1s,
          e13t, e12t, e11t, e10t, e9t, e8t, e7t, e6t, e5t, e4t, e3t, e2t, e1t,
          writesOf_append, writesOf, queryCmds, List.filterMap_cons, List.filterMap_nil,
          Option.isSome_some, List.append_assoc, List.nil_append, List.append_nil]
        simp

/-- The state a run ends in, whether it returned or raised. -/
def resState {α : Type} : Res α → QCLState
  | Res.ok _ t => t
  | Res.err _ t => t

/-- The returned value of a run, `none` when it raised. -/
def resOk {α : Type} : Res α → Option α
  | Res.ok a _ => some a
  | Res.err _ _ => none

theorem floatRun_indep (cmd : String) (n k : ℕ) (upd : Stat → ℚ → Stat)
    (s1 s2 : QCLState) (hin : s1.input = s2.input) (hst : s1.stat = s2.stat) :
    (resState (floatRun cmd n k upd s1)).stat = (resState (floatRun cmd n k upd s2)).stat ∧
    resOk (floatRun cmd n k upd s1) = resOk (floatRun cmd n k upd s2) := by
  unfold floatRun payload readAnswer
  rw [hin]
  cases pyFloat (sliceToNeg (String.mk (s2.input.take n)) k) <;>
    simp [resState, resOk, ioState, hst]

theorem intRun_indep (cmd : String) (n k : ℕ) (upd : Stat → ℤ → Stat)
    (s1 s2 : QCLState) (hin : s1.input = s2.input) (hst : s1.stat = s2.stat) :
    (resState (intRun cmd n k upd s1)).stat = (resState (intRun cmd n k upd s2)).stat ∧
    resOk (intRun cmd n k upd s1) = resOk (intRun cmd n k upd s2) := by
  unfold intRun payload readAnswer
  rw [hin]
  cases pyInt (sliceToNeg (String.mk (s2.input.take n)) k) <;>
    simp [resState, resOk, ioState, hst]

theorem floatRunOpt_indep (cmd : String) (n k : ℕ) (upd : Stat → ℚ → Stat)
    (s1 s2 : QCLState) (hin : s1.input = s2.input) (hst : s1.stat = s2.stat) :
    (resState (floatRunOpt cmd n k upd s1)).stat = (resState (floatRunOpt cmd n k upd s2)).stat ∧
    resOk (floatRunOpt cmd n k upd s1) = resOk (floatRunOpt cmd n k upd s2) := by
  unfold floatRunOpt payload readAnswer
  rw [hin]
  cases pyFloat (sliceToNeg (String.mk (s2.input.take n)) k) <;>
    simp [resState, resOk, ioState, hst]

/-- The amended C7 property: for every device-backed settable parameter,
two in-range set calls with different requested values leave identical
snapshots and return identical results — the committed value comes from
the device's reply bytes alone, never from the caller's argument. -/
def SetIndependence (s : QCLState)
    (v1 w1 v2 w2 v3 w3 v4 w4 v5 w5 v6 w6 v7 w7 v8 w8 v9 w9 v10 w10 : ℚ) : Prop :=
  ((resState (set_wn v1 s)).stat = (resState (set_wn w1 s)).stat ∧
    resOk (set_wn v1 s) = resOk (set_wn w1 s)) ∧
  ((resState (set_freq v2 s)).stat = (resState (set_freq w2 s)).stat ∧
    resOk (set_freq v2 s) = resOk (set_freq w2 s)) ∧
  ((resState (set_pw v3 s)).stat = (resState (set_pw w3 s)).stat ∧
    resOk (set_pw v3 s) = resOk (set_pw w3 s)) ∧
  ((resState (set_startwn v4 s)).stat = (resState (set_startwn w4 s)).stat ∧
    resOk (set_startwn v4 s) = resOk (set_startwn w4 s)) ∧
  ((resState (set_stopwn v5 s)).stat = (resState (set_stopwn w5 s)).stat ∧
    resOk (set_stopwn v5 s) = resOk (set_stopwn w5 s)) ∧
  ((resState (set_rate v6 s)).stat = (resState (set_rate w6 s)).stat ∧
    resOk (set_rate v6 s) = resOk (set_rate w6 s)) ∧
  ((resState (set_cycles v7 s)).stat = (resState (set_cycles w7 s)).stat ∧
    resOk (set_cycles v7 s) = resOk (set_cycles w7 s)) ∧
  ((resState (set_mode v8 s)).stat = (resState (set_mode w8 s)).stat ∧
    resOk (set_mode v8 s) = resOk (set_mode w8 s)) ∧
  ((resState (set_pause v9 s)).stat = (resState (set_pause w9 s)).stat ∧
    resOk (set_pause v9 s) = resOk (set_pause w9 s)) ∧
  ((resState (set_step v10 s)).stat = (resState (set_step w10 s)).stat ∧
    resOk (set_step v10 s) = resOk (set_step w10 s))

/-- C7 (amended): for the ten device-backed settable parameters, the
snapshot after a set and the value it returns depend only on the device
reply, not on the caller's in-range argument; the one exception forced
by the counterexample is `interval`, a purely local parameter that
`set_interval` stores directly from the caller's argument with no
device confirmation. -/
theorem claim_C7 (s : QCLState)
    (v1 w1 v2 w2 v3 w3 v4 w4 v5 w5 v6 w6 v7 w7 v8 w8 v9 w9 v10 w10 : ℚ)
    (h1 : ¬ (v1 < RangeT.wn.1 ∨ v1 > RangeT.wn.2))
    (g1 : ¬ (w1 < RangeT.wn.1 ∨ w1 > RangeT.wn.2))
    (h2 : ¬ (v2 < RangeT.freq.1 ∨ v2 > RangeT.freq.2))
    (g2 : ¬ (w2 < RangeT.freq.1 ∨ w2 > RangeT.freq.2))
    (h3 : ¬ (v3 < RangeT.pw.1 ∨ v3 > RangeT.pw.2))
    (g3 : ¬ (w3 < RangeT.pw.1 ∨ w3 > RangeT.pw.2))
    (h4 : ¬ (v4 < RangeT.startwn.1 ∨ v4 > RangeT.startwn.2))
    (g4 : ¬ (w4 < RangeT.startwn.1 ∨ w4 > RangeT.startwn.2))
    (h5 : ¬ (v5 < RangeT.stopwn.1 ∨ v5 > RangeT.stopwn.2))
    (g5 : ¬ (w5 < RangeT.stopwn.1 ∨ w5 > RangeT.stopwn.2))
    (h6 : ¬ (v6 < RangeT.rate.1 ∨ v6 > RangeT.rate.2))
    (g6 : ¬ (w6 < RangeT.rate.1 ∨ w6 > RangeT.rate.2))
    (h7 : ¬ (v7 < RangeT.cycles.1 ∨ v7 > RangeT.cycles.2))
    (g7 : ¬ (w7 < RangeT.cycles.1 ∨ w7 > RangeT.cycles.2))
    (h8 : ¬ (v8 < RangeT.mode.1 ∨ v8 > RangeT.mode.2))
    (g8 : ¬ (w8 < RangeT.mode.1 ∨ w8 > RangeT.mode.2))
    (h9 : ¬ (v9 < RangeT.pause.1 ∨ v9 > RangeT.pause.2))
    (g9 : ¬ (w9 < RangeT.pause.1 ∨ w9 > RangeT.pause.2))
    (h10 : ¬ (v10 < RangeT.step.1 ∨ v10 > RangeT.step.2))
    (g10 : ¬ (w10 < RangeT.step.1 ∨ w10 > RangeT.step.2))
    (hgp : s.stat.mode ≠ some 2)
    (hgs : s.stat.mode = some 1 ∨ s.stat.mode = some 2) :
    SetIndependence s v1 w1 v2 w2 v3 w3 v4 w4 v5 w5 v6 w6 v7 w7 v8 w8 v9 w9 v10 w10 := by
  refine ⟨?_, ?_, ?_, ?_, ?_, ?_, ?_, ?_, ?_, ?_⟩
  · rw [set_wn_run v1 s h1, set_wn_run w1 s g1, get_wn_run, get_wn_run]
    exact floatRun_indep _ _ _ _ _ _ rfl rfl
  · rw [set_freq_run v2 s h2, set_freq_run w2 s g2, get_freq_run, get_freq_run]
    exact floatRun_indep _ _ _ _ _ _ rfl rfl
  · rw [set_pw_run v3 s h3, set_pw_run w3 s g3, get_pw_run, get_pw_run]
    exact floatRun_indep _ _ _ _ _ _ rfl rfl
  · rw [set_startwn_run v4 s h4, set_startwn_run w4 s g4, get_startwn_run, get_startwn_run]
    exact floatRun_indep _ _ _ _ _ _ rfl rfl
  · rw [set_stopwn_run v5 s h5, set_stopwn_run w5 s g5, get_stopwn_run, get_stopwn_run]
    exact floatRun_indep _ _ _ _ _ _ rfl rfl
  · rw [set_rate_run v6 s h6, set_rate_run w6 s g6, get_rate_run, get_rate_run]
    exact floatRun_indep _ _ _ _ _ _ rfl rfl
  · rw [set_cycles_run v7 s h7, set_cycles_run w7 s g7, get_cycles_run, get_cycles_run]
    exact floatRun_indep _ _ _ _ _ _ rfl rfl
  · rw [set_mode_run v8 s h8, set_mode_run w8 s g8, get_mode_run, get_mode_run]
    exact intRun_indep _ _ _ _ _ _ rfl rfl
  · rw [set_pause_run v9 s hgp h9, set_pause_run w9 s hgp g9,
      get_pause_run (ioWriteState ((":scan:pause ") ++ pyStr v9 ++ "\n") s) hgp,
      get_pause_run (ioWriteState ((":scan:pause ") ++ pyStr w9 ++ "\n") s) hgp]
    exact floatRunOpt_indep _ _ _ _ _ _ rfl rfl
  · rw [set_step_run v10 s hgs h10, set_step_run w10 s hgs g10,
      get_step_run (ioWriteState ((":scan:step ") ++ pyStr v10 ++ "\n") s) hgs,
      get_step_run (ioWriteState ((":scan:step ") ++ pyStr w10 ++ "\n") s) hgs]
    exact floatRunOpt_indep _ _ _ _ _ _ rfl rfl

/-- Witness for C7 at a concrete gate-open state, with two distinct
in-range requested values per parameter. -/
theorem claim_C7_witness :
    SetIndependence (modeState 1 []) 1000 1100 10 50 0.1 0.3 1000 1050 1100 1200
      2 5 10 100 1 1 1 2 1 25 :=
  claim_C7 (modeState 1 []) 1000 1100 10 50 0.1 0.3 1000 1050 1100 1200
    2 5 10 100 1 1 1 2 1 25
    (by norm_num [RangeT]) (by norm_num [RangeT]) (by norm_num [RangeT])
    (by norm_num [RangeT]) (by norm_num [RangeT]) (by norm_num [RangeT])
    (by norm_num [RangeT]) (by norm_num [RangeT]) (by norm_num [RangeT])
    (by norm_num [RangeT]) (by norm_num [RangeT]) (by norm_num [RangeT])
    (by norm_num [RangeT]) (by norm_num [RangeT]) (by norm_num [RangeT])
    (by norm_num [RangeT])
    (by norm_num [RangeT]) (by norm_num [RangeT]) (by norm_num [RangeT])
    (by norm_num [RangeT]) (by decide) (by decide)

/-- Counterexample for C7 as stated: `set_interval 5` mutates the
`Stat` snapshot field `interval` to the caller's argument directly, with
an empty I/O trace — no get operation (no device interaction at all)
confirmed it. -/
theorem claim_C7_counterexample :
    set_interval 5 (mkState false []) =
      Res.ok 5 { mkState false [] with stat := { initStat with interval := 5 } } ∧
    ({ mkState false [] with stat := { initStat with interval := 5 } } : QCLState).trace = [] ∧
    ({ mkState false [] with stat := { initStat with interval := 5 } } : QCLState).stat.interval
      ≠ initStat.interval :=
  ⟨set_interval_run 5 (mkState false []) (by norm_num [RangeT]), rfl, by decide⟩

/-- C8 (amended): with logging enabled, a single in-range `set_wn` call
appends exactly three entries to the in-memory log buffer, in order:
the sent set command line, the sent confirming query command line, and
the received reply (whether or not the confirming parse then
succeeds). -/
theorem claim_C8 (s : QCLState) (v : ℚ) (hlog : s.log = true)
    (hv : ¬ (v < RangeT.wn.1 ∨ v > RangeT.wn.2)) :
    (resState (set_wn v s)).log_file =
      s.log_file ++ [((">>> ") ++ (":laser:set " ++ pyStr v ++ "\n"), s.now),
        ((">>> ") ++ (":laser:set?\n"), s.now + 1),
        (("<<< ") ++ readAnswer s 13, s.now + 2)] := by
  rw [set_wn_run v s hv, get_wn_run]
  unfold floatRun
  cases pyFloat (payload (ioWriteState ((":laser:set ") ++ pyStr v ++ "\n") s) 13 6) <;>
    simp [resState, ioState, ioWriteState, readAnswer, hlog, List.append_assoc]

/-- Witness for C8 at a concrete logged client and the call
`set_wn 1080` against a pending 13-byte reply. -/
theorem claim_C8_witness :
    (resState (set_wn 1080 (mkState true (("1080.00cm-1\r\n").data)))).log_file =
      [] ++ [((">>> ") ++ (":laser:set " ++ pyStr 1080 ++ "\n"), 0),
        ((">>> ") ++ (":laser:set?\n"), 1),
        (("<<< ") ++ readAnswer (mkState true (("1080.00cm-1\r\n").data)) 13, 2)] :=
  claim_C8 (mkState true (("1080.00cm-1\r\n").data)) 1080 rfl (by norm_num [RangeT])

/-- Counterexample for C8 as stated: the logged `set_wn 1080` call
appends three entries to the buffer, not two (the confirming `get_wn`
inside the setter logs its own query command as well as the reply). -/
theorem claim_C8_counterexample :
    (resState (set_wn 1080 (mkState true (("1080.00cm-1\r\n").data)))).log_file.length = 3 ∧
    (resState (set_wn 1080 (mkState true (("1080.00cm-1\r\n").data)))).log_file.length ≠ 2 := by
  have h3 : (resState (set_wn 1080 (mkState true (("1080.00cm-1\r\n").data)))).log_file.length = 3 := by
    rw [set_wn_run 1080 _ (by norm_num [RangeT]), get_wn_run]
    unfold floatRun
    cases pyFloat (payload (ioWriteState ((":laser:set ") ++ pyStr 1080 ++ "\n")
        (mkState true (("1080.00cm-1\r\n").data))) 13 6) <;>
      simp [resState, ioState, ioWriteState, readAnswer, mkState]
  exact ⟨h3, by rw [h3]; decide⟩

/-! ### The `man_scan` loops, step by step (for C9) -/

/-- State after a live-wavenumber (`get_awn`) read that parsed `w`. -/
def awnUpd (t : QCLState) (w : ℚ) : QCLState :=
  { ioState (":laser:pos?\n") 13 t with stat := { t.stat with awn := some w } }

/-- One synchronous `man_scan` loop iteration whose poll parses a
nonzero count: `step_next()` is issued — also after the very first
poll — then the loop sleeps the interval and continues. -/
theorem msLoop_succ_pos (i : ℚ) (n : ℕ) (s : QCLState) (c : ℤ) (l : List Char)
    (hin : s.input = l) (hc : pyInt (sliceToNeg (String.mk (l.take 6)) 2) = some c)
    (h0 : ¬ c = 0) :
    msLoop i (n + 1) s =
      msLoop i n (slState i (ioWriteState (":scan:step:next\n") (pollState s c))) := by
  have hc2 : pyInt (payload s 6 2) = some c := by
    rw [payload, readAnswer, hin]; exact hc
  simp only [msLoop, bind_apply, get_scancount_run s, intRun, hc2, getS, pure_apply,
    step_next_run, sleep, slState, pollState, ioWriteState, Option.some.injEq, h0, if_false,
    List.append_assoc]

/-- One synchronous `man_scan` loop iteration whose poll parses the
count 0: the loop returns at once, with no `step_next` and no sleep. -/
theorem msLoop_succ_zero (i : ℚ) (n : ℕ) (s : QCLState) (l : List Char)
    (hin : s.input = l) (hc : pyInt (sliceToNeg (String.mk (l.take 6)) 2) = some 0) :
    msLoop i (n + 1) s = Res.ok () (pollState s 0) := by
  have hc2 : pyInt (payload s 6 2) = some (0 : ℤ) := by
    rw [payload, readAnswer, hin]; exact hc
  simp only [msLoop, bind_apply, get_scancount_run s, intRun, hc2, getS, pure_apply,
    pollState, if_true, if_pos]

/-- `man_scan(asynchron=False)` opens with `scan_start()` and a fixed
3-second grace sleep, then runs the poll loop with the interval cached
in `Stat`. -/
theorem man_scan_sync_open (fuel : ℕ) (s : QCLState) :
    man_scan_sync fuel s =
      msLoop s.stat.interval fuel (slState 3 (ioWriteState (":scan:run 1\n") s)) := by
  by_cases hl : s.log <;>
    simp only [man_scan_sync, bind_apply, getS, scan_start_run, sleep, slState, ioWriteState,
      hl, if_true, if_false]

/-- One asynchronous `man_scan` callback whose poll parses a nonzero
count: the cycle queries the scan count and then the live output
wavenumber, issues `step_next()` — also after the very first poll — and
re-arms after the interval. -/
theorem msTimerLoop_succ_pos (i : ℚ) (n : ℕ) (s : QCLState) (c : ℤ) (w : ℚ) (l : List Char)
    (hin : s.input = l)
    (hc : pyInt (sliceToNeg (String.mk (l.take 6)) 2) = some c)
    (hw : pyFloat (sliceToNeg (String.mk ((l.drop 6).take 13)) 6) = some w)
    (h0 : ¬ c = 0) :
    msTimerLoop i (n + 1) s =
      msTimerLoop i n (slState i (ioWriteState (":scan:step:next\n") (awnUpd (pollState s c) w))) := by
  have hc2 : pyInt (sliceToNeg (String.mk (s.input.take 6)) 2) = some c := by
    rw [hin]; exact hc
  have hw2 : pyFloat (sliceToNeg (String.mk ((s.input.drop 6).take 13)) 6) = some w := by
    rw [hin]; exact hw
  simp only [msTimerLoop, bind_apply, get_scancount_run s, intRun,
    get_awn_run, floatRun, payload, readAnswer, hc2, hw2, getS, pure_apply,
    step_next_run, sleep, slState, pollState, awnUpd, ioWriteState, ioState,
    Option.some.injEq, h0, if_false, List.append_assoc]

/-- One asynchronous `man_scan` callback whose poll parses the count 0:
the cycle still queries the live wavenumber, then stops re-arming. -/
theorem msTimerLoop_succ_zero (i : ℚ) (n : ℕ) (s : QCLState) (w : ℚ) (l : List Char)
    (hin : s.input = l)
    (hc : pyInt (sliceToNeg (String.mk (l.take 6)) 2) = some 0)
    (hw : pyFloat (sliceToNeg (String.mk ((l.drop 6).take 13)) 6) = some w) :
    msTimerLoop i (n + 1) s = Res.ok () (awnUpd (pollState s 0) w) := by
  have hc2 : pyInt (sliceToNeg (String.mk (s.input.take 6)) 2) = some (0 : ℤ) := by
    rw [hin]; exact hc
  have hw2 : pyFloat (sliceToNeg (String.mk ((s.input.drop 6).take 13)) 6) = some w := by
    rw [hin]; exact hw
  simp only [msTimerLoop, bind_apply, get_scancount_run s, intRun,
    get_awn_run, floatRun, payload, readAnswer, hc2, hw2, getS, pure_apply,
    pollState, awnUpd, ioState, Option.some.injEq, if_true, if_pos, List.append_assoc]

/-- `man_scan(asynchron=True)` (linearised) opens with `scan_start()`
and the initial `Timer` delay of the configured interval — not a fixed
grace period — then runs the callback chain. -/
theorem man_scan_async_open (fuel : ℕ) (s : QCLState) :
    man_scan_async fuel s =
      msTimerLoop s.stat.interval fuel
        (slState s.stat.interval (ioWriteState (":scan:run 1\n") s)) := by
  by_cases hl : s.log <;>
    simp only [man_scan_async, bind_apply, getS, scan_start_run, sleep, slState, ioWriteState,
      hl, if_true, if_false]

/-- C9 (amended): the `man_scan` poll loops issue `step_next()` after
EVERY scancount poll that observes a nonzero count, including the first;
the synchronous variant precedes its loop with `scan_start()` and a
fixed 3-second grace sleep and never queries the live output wavenumber
(no `:laser:pos?` command in its trace), while only the asynchronous
variant's poll cycle additionally queries the live output wavenumber,
with the configured interval (not a fixed grace period) as the delay
before its first poll. -/
theorem claim_C9 :
    (∀ (i : ℚ) (n : ℕ) (s : QCLState) (c : ℤ) (l : List Char),
      s.input = l → pyInt (sliceToNeg (String.mk (l.take 6)) 2) = some c → ¬ c = 0 →
      msLoop i (n + 1) s =
        msLoop i n (slState i (ioWriteState (":scan:step:next\n") (pollState s c)))) ∧
    (∀ (i : ℚ) (n : ℕ) (s : QCLState) (l : List Char),
      s.input = l → pyInt (sliceToNeg (String.mk (l.take 6)) 2) = some 0 →
      msLoop i (n + 1) s = Res.ok () (pollState s 0)) ∧
    (∀ (fuel : ℕ) (s : QCLState),
      man_scan_sync fuel s =
        msLoop s.stat.interval fuel (slState 3 (ioWriteState (":scan:run 1\n") s))) ∧
    (∀ (i : ℚ) (n : ℕ) (s : QCLState) (c : ℤ) (w : ℚ) (l : List Char),
      s.input = l → pyInt (sliceToNeg (String.mk (l.take 6)) 2) = some c →
      pyFloat (sliceToNeg (String.mk ((l.drop 6).take 13)) 6) = some w → ¬ c = 0 →
      msTimerLoop i (n + 1) s =
        msTimerLoop i n (slState i (ioWriteState (":scan:step:next\n")
          (awnUpd (pollState s c) w)))) ∧
    (∀ (fuel : ℕ) (s : QCLState),
      man_scan_async fuel s =
        msTimerLoop s.stat.interval fuel
          (slState s.stat.interval (ioWriteState (":scan:run 1\n") s))) ∧
    (man_scan_sync 2 (mkState false (("   1\r\n   0\r\n").data)) =
        Res.ok ()
          { log := false, log_file := [], now := 6,
            stat := { initStat with scancount := some 0 }, input := [],
            trace := [Event.wr (":scan:run 1\n"), Event.sl 3, Event.wr (":scan:count?\n"),
              Event.rd ("   1\r\n"), Event.wr (":scan:step:next\n"), Event.sl 3,
              Event.wr (":scan:count?\n"), Event.rd ("   0\r\n")] } ∧
      Event.wr (":laser:pos?\n") ∉
        [Event.wr (":scan:run 1\n"), Event.sl (3 : ℚ), Event.wr (":scan:count?\n"),
          Event.rd ("   1\r\n"), Event.wr (":scan:step:next\n"), Event.sl (3 : ℚ),
          Event.wr (":scan:count?\n"), Event.rd ("   0\r\n")]) ∧
    (man_scan_async 2
        (mkState false (("   1\r\n   1000cm-1\r\n   0\r\n   1001cm-1\r\n").data)) =
      Res.ok ()
        { log := false, log_file := [], now := 10,
          stat := { initStat with scancount := some 0, awn := some 1001 }, input := [],
          trace := [Event.wr (":scan:run 1\n"), Event.sl 3, Event.wr (":scan:count?\n"),
            Event.rd ("   1\r\n"), Event.wr (":laser:pos?\n"), Event.rd ("   1000cm-1\r\n"),
            Event.wr (":scan:step:next\n"), Event.sl 3, Event.wr (":scan:count?\n"),
            Event.rd ("   0\r\n"), Event.wr (":laser:pos?\n"),
            Event.rd ("   1001cm-1\r\n")] }) := by
  refine ⟨msLoop_succ_pos, msLoop_succ_zero, man_scan_sync_open, msTimerLoop_succ_pos,
    man_scan_async_open, ⟨?_, by decide⟩, ?_⟩
  · calc man_scan_sync 2 (mkState false (("   1\r\n   0\r\n").data))
        = msLoop 3 (1 + 1)
            { log := false, log_file := [], now := 1, stat := initStat,
              input := (("   1\r\n   0\r\n").data),
              trace := [Event.wr (":scan:run 1\n"), Event.sl 3] } :=
          man_scan_sync_open 2 _
      _ = msLoop 3 (0 + 1)
            { log := false, log_file := [], now := 4,
              stat := { initStat with scancount := some 1 },
              input := (("   0\r\n").data),
              trace := [Event.wr (":scan:run 1\n"), Event.sl 3, Event.wr (":scan:count?\n"),
                Event.rd ("   1\r\n"), Event.wr (":scan:step:next\n"), Event.sl 3] } :=
          msLoop_succ_pos 3 1 _ 1 (("   1\r\n   0\r\n").data) rfl (by decide) (by decide)
      _ = Res.ok ()
            { log := false, log_file := [], now := 6,
              stat := { initStat with scancount := some 0 }, input := [],
              trace := [Event.wr (":scan:run 1\n"), Event.sl 3, Event.wr (":scan:count?\n"),
                Event.rd ("   1\r\n"), Event.wr (":scan:step:next\n"), Event.sl 3,
                Event.wr (":scan:count?\n"), Event.rd ("   0\r\n")] } :=
          msLoop_succ_zero 3 0 _ (("   0\r\n").data) rfl (by decide)
  · calc man_scan_async 2
          (mkState false (("   1\r\n   1000cm-1\r\n   0\r\n   1001cm-1\r\n").data))
        = msTimerLoop 3 (1 + 1)
            { log := false, log_file := [], now := 1, stat := initStat,
              input := (("   1\r\n   1000cm-1\r\n   0\r\n   1001cm-1\r\n").data),
              trace := [Event.wr (":scan:run 1\n"), Event.sl 3] } :=
          man_scan_async_open 2 _
      _ = msTimerLoop 3 (0 + 1)
            { log := false, log_file := [], now := 6,
              stat := { initStat with scancount := some 1, awn := some 1000 },
              input := (("   0\r\n   1001cm-1\r\n").data),
              trace := [Event.wr (":scan:run 1\n"), Event.sl 3, Event.wr (":scan:count?\n"),
                Event.rd ("   1\r\n"), Event.wr (":laser:pos?\n"),
                Event.rd ("   1000cm-1\r\n"), Event.wr (":scan:step:next\n"), Event.sl 3] } :=
          msTimerLoop_succ_pos 3 1 _ 1 1000
            (("   1\r\n   1000cm-1\r\n   0\r\n   1001cm-1\r\n").data)
            rfl (by decide) (by decide) (by decide)
      _ = Res.ok ()
            { log := false, log_file := [], now := 10,
              stat := { initStat with scancount := some 0, awn := some 1001 }, input := [],
              trace := [Event.wr (":scan:run 1\n"), Event.sl 3, Event.wr (":scan:count?\n"),
                Event.rd ("   1\r\n"), Event.wr (":laser:pos?\n"), Event.rd ("   1000cm-1\r\n"),
                Event.wr (":scan:step:next\n"), Event.sl 3, Event.wr (":scan:count?\n"),
                Event.rd ("   0\r\n"), Event.wr (":laser:pos?\n"),
                Event.rd ("   1001cm-1\r\n")] } :=
          msTimerLoop_succ_zero 3 0 _ 1001 (("   0\r\n   1001cm-1\r\n").data)
            rfl (by decide) (by decide)

/-- Witness for C9's hypothesis-bearing parts at concrete inputs: one
nonzero synchronous poll (count 1, followed by `step_next`), one zero
synchronous poll, and one nonzero asynchronous poll cycle (count 1,
live wavenumber 1000, followed by `step_next`). -/
theorem claim_C9_witness :
    msLoop 5 (0 + 1) (mkState false (("   1\r\n").data)) =
      msLoop 5 0 (slState 5 (ioWriteState (":scan:step:next\n")
        (pollState (mkState false (("   1\r\n").data)) 1))) ∧
    msLoop 5 (0 + 1) (mkState false (("   0\r\n").data)) =
      Res.ok () (pollState (mkState false (("   0\r\n").data)) 0) ∧
    msTimerLoop 5 (0 + 1) (mkState false (("   1\r\n   1000cm-1\r\n").data)) =
      msTimerLoop 5 0 (slState 5 (ioWriteState (":scan:step:next\n")
        (awnUpd (pollState (mkState false (("   1\r\n   1000cm-1\r\n").data)) 1) 1000))) :=
  ⟨claim_C9.1 5 0 (mkState false (("   1\r\n").data)) 1 (("   1\r\n").data)
      rfl (by decide) (by decide),
   claim_C9.2.1 5 0 (mkState false (("   0\r\n").data)) (("   0\r\n").data)
      rfl (by decide),
   claim_C9.2.2.2.1 5 0 (mkState false (("   1\r\n   1000cm-1\r\n").data)) 1 1000
      (("   1\r\n   1000cm-1\r\n").data) rfl (by decide) (by decide) (by decide)⟩

/-- Counterexample for C9 as stated: in the synchronous `man_scan` run
against scan counts 1 then 0, the very first poll (observing 1) is
immediately followed by the `step_next` command in the trace —
contradicting "except the first poll" — and no live-output-wavenumber
query (`:laser:pos?`) appears in any poll cycle — contradicting "each
poll cycle also queries the live output wavenumber". -/
theorem claim_C9_counterexample :
    man_scan_sync 2 (mkState false (("   1\r\n   0\r\n").data)) =
      Res.ok ()
        { log := false, log_file := [], now := 6,
          stat := { initStat with scancount := some 0 }, input := [],
          trace := [Event.wr (":scan:run 1\n"), Event.sl 3, Event.wr (":scan:count?\n"),
            Event.rd ("   1\r\n"), Event.wr (":scan:step:next\n"), Event.sl 3,
            Event.wr (":scan:count?\n"), Event.rd ("   0\r\n")] } ∧
    List.take 5 [Event.wr (":scan:run 1\n"), Event.sl (3 : ℚ), Event.wr (":scan:count?\n"),
        Event.rd ("   1\r\n"), Event.wr (":scan:step:next\n"), Event.sl (3 : ℚ),
        Event.wr (":scan:count?\n"), Event.rd ("   0\r\n")] =
      [Event.wr (":scan:run 1\n"), Event.sl (3 : ℚ), Event.wr (":scan:count?\n"),
        Event.rd ("   1\r\n"), Event.wr (":scan:step:next\n")] ∧
    Event.wr (":laser:pos?\n") ∉
      [Event.wr (":scan:run 1\n"), Event.sl (3 : ℚ), Event.wr (":scan:count?\n"),
        Event.rd ("   1\r\n"), Event.wr (":scan:step:next\n"), Event.sl (3 : ℚ),
        Event.wr (":scan:count?\n"), Event.rd ("   0\r\n")] := by
  refine ⟨?_, by decide, by decide⟩
  calc man_scan_sync 2 (mkState false (("   1\r\n   0\r\n").data))
      = msLoop 3 (1 + 1)
          { log := false, log_file := [], now := 1, stat := initStat,
            input := (("   1\r\n   0\r\n").data),
            trace := [Event.wr (":scan:run 1\n"), Event.sl 3] } :=
        man_scan_sync_open 2 _
    _ = msLoop 3 (0 + 1)
          { log := false, log_file := [], now := 4,
            stat := { initStat with scancount := some 1 },
            input := (("   0\r\n").data),
            trace := [Event.wr (":scan:run 1\n"), Event.sl 3, Event.wr (":scan:count?\n"),
              Event.rd ("   1\r\n"), Event.wr (":scan:step:next\n"), Event.sl 3] } :=
        msLoop_succ_pos 3 1 _ 1 (("   1\r\n   0\r\n").data) rfl (by decide) (by decide)
    _ = Res.ok ()
          { log := false, log_file := [], now := 6,
            stat := { initStat with scancount := some 0 }, input := [],
            trace := [Event.wr (":scan:run 1\n"), Event.sl 3, Event.wr (":scan:count?\n"),
              Event.rd ("   1\r\n"), Event.wr (":scan:step:next\n"), Event.sl 3,
              Event.wr (":scan:count?\n"), Event.rd ("   0\r\n")] } :=
        msLoop_succ_zero 3 0 _ (("   0\r\n").data) rfl (by decide)

end QCL
